import Mathlib

/-!
Verification of the publish orchestration workflow of the publishjs CLI.
Each definition is a shallow embedding of the corresponding TypeScript
function; external collaborators (git subcommands, registry CLIs, the
file system and the interactive prompt library) are modelled as
environment records carrying the outcome of each call, and side effects
are recorded in an explicit event trace.
-/

set_option linter.unusedVariables false

namespace PublishJs

/-- Typed error carried by every failed operation (utils.ts, PublishError).
The optional wrapped cause is used only for diagnostics and is dropped. -/
structure PublishError where
  message : String
  code : String
deriving DecidableEq, Repr

/-- Two-variant outcome used instead of exceptions (utils.ts, Result). -/
inductive Result (α : Type) where
  | ok (value : α)
  | err (error : PublishError)
deriving DecidableEq, Repr

/-- Outcome of an interactive prompt: the cliffy prompt library either
resolves with an answer or throws when the user aborts (interrupt). -/
inductive PromptOutcome (α : Type) where
  | answer (a : α)
  | cancelled
deriving DecidableEq, Repr

/-- Outcome of an adapter call that can throw an exception. -/
inductive CallOutcome (α : Type) where
  | ok (a : α)
  | threw
deriving DecidableEq, Repr

/-- Result of a sub-flow in which an exception can escape to the caller
(a prompt awaited without a surrounding try/catch). -/
inductive FlowResult (α : Type) where
  | ret (r : Result α)
  | thrown
deriving DecidableEq, Repr

/-- Result of probing a JSON file on disk: missing, present but not
parseable, or parsed. -/
inductive FileProbe (α : Type) where
  | absent
  | invalid
  | parsed (val : α)
deriving DecidableEq, Repr

/-- JavaScript truthiness of an optional string field: absent and the
empty string are falsy. -/
def truthy : Option String → Bool
  | none => false
  | some s => !s.isEmpty

/-- JavaScript String.prototype.split with a single-character
separator, the only form the source uses (split on / and on newline).
Implemented on the character list so that it evaluates inside the
kernel. -/
def splitChAux (sep : Char) : List Char → List Char → List String
  | [], acc => [String.mk acc.reverse]
  | c :: rest, acc =>
      if c == sep then String.mk acc.reverse :: splitChAux sep rest []
      else splitChAux sep rest (c :: acc)

/-- Split a string at every occurrence of the separator character. -/
def splitCh (sep : Char) (s : String) : List String :=
  splitChAux sep s.toList []

/-- Whitespace characters removed by trim. -/
def isWsp (c : Char) : Bool :=
  c == ' ' || c == '\t' || c == '\n' || c == '\r'

/-- String trim implemented on the character list. -/
def trimStr (s : String) : String :=
  String.mk (((s.toList.dropWhile isWsp).reverse.dropWhile isWsp).reverse)

/-- Lowercasing implemented characterwise. -/
def lowerStr (s : String) : String :=
  String.mk (s.toList.map Char.toLower)

/-! ## JSR configuration validator (jsr_validator module) -/

/-- The exports field of deno.json is either a string or an object. -/
inductive ExportsField where
  | str (s : String)
  | obj (entries : List (String × String))
deriving DecidableEq, Repr

/-- JavaScript truthiness of the exports field: absent and the empty
string are falsy, an object is always truthy. -/
def exportsTruthy : Option ExportsField → Bool
  | none => false
  | some (ExportsField.str s) => !s.isEmpty
  | some (ExportsField.obj _) => true

/-- Recognized fields of deno.json (jsr_validator, DenoConfig).
Unrecognized fields never influence validation and are omitted. -/
structure DenoConfig where
  name : Option String := none
  version : Option String := none
  exports : Option ExportsField := none
  license : Option String := none
deriving DecidableEq, Repr

/-- Structured validation outcome for the JSR manifest
(jsr_validator, JsrValidation). -/
structure JsrValidation where
  isValid : Bool := false
  hasConfig : Bool := false
  hasName : Bool := false
  hasValidName : Bool := false
  hasVersion : Bool := false
  hasValidVersion : Bool := false
  hasExports : Bool := false
  hasLicense : Bool := false
  currentConfig : Option DenoConfig := none
  issues : List String := []
  suggestions : List String := []
deriving DecidableEq, Repr

/-- Characters allowed in a JSR scope or package name: [a-z0-9-]. -/
def isScopeChar (c : Char) : Bool :=
  ('a' ≤ c && c ≤ 'z') || ('0' ≤ c && c ≤ '9') || c == '-'

/-- Regex ^@[a-z0-9-]+/[a-z0-9-]+$ from jsr_validator validateJsrName. -/
def validateJsrName (name : String) : Bool :=
  match splitCh '/' name with
  | [scopePart, pkgPart] =>
    match scopePart.toList with
    | '@' :: scopeChars =>
        !scopeChars.isEmpty && scopeChars.all isScopeChar &&
        !pkgPart.isEmpty && pkgPart.toList.all isScopeChar
    | _ => false
  | _ => false

/-- ASCII digit, matching the regex class \d. -/
def isDigitCh (c : Char) : Bool := '0' ≤ c && c ≤ '9'

/-- Character class [a-zA-Z0-9.-] used by the pre-release and build
parts of the semver regex. -/
def isIdChar (c : Char) : Bool :=
  ('a' ≤ c && c ≤ 'z') || ('A' ≤ c && c ≤ 'Z') ||
  ('0' ≤ c && c ≤ '9') || c == '.' || c == '-'

/-- Optional build-metadata suffix (\+[a-zA-Z0-9.-]+)?$ of the semver
regex. -/
def plusPart : List Char → Bool
  | [] => true
  | '+' :: rest =>
      let s := rest.span isIdChar
      !s.1.isEmpty && s.2.isEmpty
  | _ => false

/-- Optional pre-release then build suffix
(-[a-zA-Z0-9.-]+)?(\+[a-zA-Z0-9.-]+)?$ of the semver regex. -/
def semverSuffix (cs : List Char) : Bool :=
  match cs with
  | '-' :: rest =>
      let s := rest.span isIdChar
      !s.1.isEmpty && plusPart s.2
  | _ => plusPart cs

/-- Regex ^\d+\.\d+\.\d+(-[a-zA-Z0-9.-]+)?(\+[a-zA-Z0-9.-]+)?$ from
jsr_validator validateSemver. -/
def validateSemver (version : String) : Bool :=
  let cs := version.toList
  let s1 := cs.span isDigitCh
  if s1.1.isEmpty then false
  else match s1.2 with
    | '.' :: r2 =>
      let s2 := r2.span isDigitCh
      if s2.1.isEmpty then false
      else match s2.2 with
        | '.' :: r4 =>
          let s3 := r4.span isDigitCh
          if s3.1.isEmpty then false else semverSuffix s3.2
        | _ => false
    | _ => false

/-- Suggestion emitted when the license field is absent. -/
def licenseSuggestion : String :=
  "Consider adding \x27license\x27 field (e.g., \x27MIT\x27)"

/-- jsr_validator validateJsrConfig: builds the structured validation
for the deno.json probe.  Every path returns ok; a missing or
unparseable file yields an all-false validation with a single issue. -/
def validateJsrConfig (probe : FileProbe DenoConfig) : Result JsrValidation :=
  match probe with
  | FileProbe.absent | FileProbe.invalid =>
      Result.ok
        { isValid := false, hasConfig := false, hasName := false,
          hasValidName := false, hasVersion := false,
          hasValidVersion := false, hasExports := false,
          hasLicense := false, currentConfig := none,
          issues := ["deno.json file not found"],
          suggestions := ["Create a deno.json file for JSR publishing"] }
  | FileProbe.parsed config =>
      let hasName := truthy config.name
      let nm := config.name.getD ""
      let hasValidName := hasName && validateJsrName nm
      let hasVersion := truthy config.version
      let ver := config.version.getD ""
      let hasValidVersion := hasVersion && validateSemver ver
      let hasExports := exportsTruthy config.exports
      let hasLicense := truthy config.license
      let nameIssues : List String :=
        if !hasName then ["Missing \x27name\x27 field"]
        else if !validateJsrName nm then
          ["Invalid name format: " ++ nm ++ ". Must be @scope/package"]
        else []
      let nameSuggs : List String :=
        if !hasName then ["Add \x27name\x27 field in format: @scope/package-name"]
        else if !validateJsrName nm then
          ["Use format: @your-username/package-name (all lowercase, hyphens allowed)"]
        else []
      let versionIssues : List String :=
        if !hasVersion then ["Missing \x27version\x27 field"]
        else if !validateSemver ver then
          ["Invalid version format: " ++ ver ++ ". Must be semver"]
        else []
      let versionSuggs : List String :=
        if !hasVersion then ["Add \x27version\x27 field (e.g., \x270.1.0\x27)"]
        else if !validateSemver ver then
          ["Use semver format: MAJOR.MINOR.PATCH (e.g., \x271.0.0\x27)"]
        else []
      let exportsIssues : List String :=
        if !hasExports then ["Missing \x27exports\x27 field"] else []
      let exportsSuggs : List String :=
        if !hasExports then ["Add \x27exports\x27 field pointing to main file"] else []
      let licenseSuggs : List String :=
        if !hasLicense then [licenseSuggestion] else []
      Result.ok
        { isValid := hasValidName && hasValidVersion && hasExports,
          hasConfig := true, hasName := hasName,
          hasValidName := hasValidName, hasVersion := hasVersion,
          hasValidVersion := hasValidVersion, hasExports := hasExports,
          hasLicense := hasLicense, currentConfig := some config,
          issues := nameIssues ++ versionIssues ++ exportsIssues,
          suggestions := nameSuggs ++ versionSuggs ++ exportsSuggs ++ licenseSuggs }

/-! ## Registry detection (registry.ts) -/

inductive RegistryType where
  | npm
  | jsr
deriving DecidableEq, Repr

/-- registry.ts PackageInfo.  The TypeScript field named private is
called isPrivate here because private is a Lean keyword. -/
structure PackageInfo where
  name : String
  version : String
  registry : RegistryType
  isPrivate : Bool := false
deriving DecidableEq, Repr

/-- Recognized fields of package.json used by detectNpmPackage.  The
private field is kept as an optional boolean since the source compares
it with === true. -/
structure NpmPkg where
  name : Option String := none
  version : Option String := none
  privateField : Option Bool := none
deriving DecidableEq, Repr

/-- File-system state consulted by the registry probes. -/
structure RegistryEnv where
  packageJson : FileProbe NpmPkg := FileProbe.absent
  denoJson : FileProbe DenoConfig := FileProbe.absent
  jsrJson : FileProbe DenoConfig := FileProbe.absent
deriving DecidableEq, Repr

/-- registry.ts detectNpmPackage. -/
def detectNpmPackage (env : RegistryEnv) : Result PackageInfo :=
  match env.packageJson with
  | FileProbe.absent =>
      Result.err ⟨"package.json not found", "NPM_NOT_FOUND"⟩
  | FileProbe.invalid =>
      Result.err ⟨"Failed to parse package.json", "NPM_PARSE_ERROR"⟩
  | FileProbe.parsed pkg =>
      if !truthy pkg.name then
        Result.err ⟨"package.json missing \x27name\x27 field", "NPM_INVALID_CONFIG"⟩
      else if !truthy pkg.version then
        Result.err ⟨"package.json missing \x27version\x27 field", "NPM_INVALID_CONFIG"⟩
      else
        Result.ok
          { name := pkg.name.getD "", version := pkg.version.getD "",
            registry := RegistryType.npm,
            isPrivate := pkg.privateField == some true }

/-- Shared tail of detectJsrPackage once a config file was chosen. -/
def detectJsrFrom (probe : FileProbe DenoConfig) (pathName : String) :
    Result PackageInfo :=
  match probe with
  | FileProbe.absent =>
      Result.err ⟨"deno.json or jsr.json not found", "JSR_NOT_FOUND"⟩
  | FileProbe.invalid =>
      Result.err ⟨"Failed to parse " ++ pathName, "JSR_PARSE_ERROR"⟩
  | FileProbe.parsed config =>
      if !truthy config.name then
        Result.err ⟨pathName ++ " missing \x27name\x27 field", "JSR_INVALID_CONFIG"⟩
      else if !truthy config.version then
        Result.err ⟨pathName ++ " missing \x27version\x27 field", "JSR_INVALID_CONFIG"⟩
      else
        Result.ok
          { name := config.name.getD "", version := config.version.getD "",
            registry := RegistryType.jsr, isPrivate := false }

/-- registry.ts detectJsrPackage: prefers deno.json, falls back to
jsr.json; existence is checked before parsing. -/
def detectJsrPackage (env : RegistryEnv) : Result PackageInfo :=
  match env.denoJson with
  | FileProbe.absent =>
      match env.jsrJson with
      | FileProbe.absent =>
          Result.err ⟨"deno.json or jsr.json not found", "JSR_NOT_FOUND"⟩
      | probe => detectJsrFrom probe "jsr.json"
  | probe => detectJsrFrom probe "deno.json"

/-- registry.ts detectRegistries: never fails; the npm entry is added
only when the probe succeeds and the manifest is not private, the JSR
entry only when its probe succeeds. -/
def detectRegistries (env : RegistryEnv) : List PackageInfo :=
  (match detectNpmPackage env with
   | Result.ok p => if !p.isPrivate then [p] else []
   | Result.err _ => []) ++
  (match detectJsrPackage env with
   | Result.ok p => [p]
   | Result.err _ => [])

/-- registry.ts getRegistryName. -/
def getRegistryName (registry : RegistryType) : String :=
  match registry with
  | RegistryType.npm => "npm"
  | RegistryType.jsr => "JSR"

/-! ## Remote descriptor (remote.ts) -/

inductive RemotePlatform where
  | github
  | gitlab
  | bitbucket
  | other
deriving DecidableEq, Repr

/-- Whether sub occurs as a contiguous run inside l. -/
def subOccurs (sub : List Char) : List Char → Bool
  | [] => sub.isEmpty
  | c :: rest => sub.isPrefixOf (c :: rest) || subOccurs sub rest

/-- Whether sub occurs inside s. -/
def containsSub (s sub : String) : Bool :=
  subOccurs sub.toList s.toList

/-- remote.ts detectPlatform: case-insensitive substring matching on
the remote URL. -/
def detectPlatform (url : String) : RemotePlatform :=
  let lowerUrl := lowerStr url
  if containsSub lowerUrl "github.com" then RemotePlatform.github
  else if containsSub lowerUrl "gitlab.com" then RemotePlatform.gitlab
  else if containsSub lowerUrl "bitbucket.org" then RemotePlatform.bitbucket
  else RemotePlatform.other

/-- git.ts GitRemote: a configured remote. -/
structure GitRemote where
  name : String
  url : String
deriving DecidableEq, Repr

/-- remote.ts RemoteInfo.  The best-effort owner and repo fields parsed
from the URL are display-only and omitted. -/
structure RemoteInfo where
  name : String
  url : String
  platform : RemotePlatform
deriving DecidableEq, Repr

/-- remote.ts getRemoteInfo. -/
def getRemoteInfo (remote : GitRemote) : RemoteInfo :=
  { name := remote.name, url := remote.url,
    platform := detectPlatform remote.url }

/-! ## Repository status and the environment of one publish run -/

/-- git.ts repository status snapshot read by getGitStatus. -/
structure GitStatus where
  isRepo : Bool
  currentBranch : Option String := none
  isDirty : Bool := false
deriving DecidableEq, Repr

/-- interactive.ts publish-type selection. -/
inductive PublishType where
  | branch
  | tag
  | createTag
deriving DecidableEq, Repr

/-- One external-collaborator environment for a single publish run:
the outcome of each adapter call and each prompt the pipeline might
make.  The source re-queries external state at each call site; a field
here is the value that call would produce at the moment the pipeline
reaches it. -/
structure Env where
  gitInstalled : Bool := true
  gitStatus : Result GitStatus := Result.ok { isRepo := true }
  initGitAnswer : PromptOutcome Bool := PromptOutcome.answer true
  initRepo : Result Unit := Result.ok ()
  remotes : Result (List GitRemote) := Result.ok []
  canPushCall : CallOutcome Bool := CallOutcome.ok true
  publishTypeAnswer : PromptOutcome PublishType := PromptOutcome.cancelled
  branches : Result (List String) := Result.ok []
  selectBranchAnswer : PromptOutcome String := PromptOutcome.cancelled
  tags : Result (List String) := Result.ok []
  selectTagAnswer : PromptOutcome String := PromptOutcome.cancelled
  createTagAnswer : PromptOutcome (String × Option String) := PromptOutcome.cancelled
  createTagResult : String → Result Unit := fun _ => Result.ok ()
  reg : RegistryEnv := {}
  registryConfirm : String → PromptOutcome Bool := fun _ => PromptOutcome.answer true
  confirmPublishAnswer : PromptOutcome Bool := PromptOutcome.answer true
  push : String → String → Bool → Result Unit := fun _ _ _ => Result.ok ()
  publishRegistryResult : RegistryType → Result Unit := fun _ => Result.ok ()

/-- Observable side effects and prompt suspensions of the pipeline and
of the remediation sub-flows, in the order they happen.  Reads of
external state are not side effects and leave no event. -/
inductive Event where
  | promptInitGit
  | promptPublishType
  | promptSelectBranch
  | promptSelectTag
  | promptCreateTag
  | promptRegistryConfirm (name : String)
  | promptConfirmPublish
  | promptCommitConfirm
  | promptCommitUseDefault
  | promptCommitMessage
  | promptCustomizeInitMsg
  | promptInitCommitMessage
  | promptGitUserName
  | promptGitUserEmail
  | promptJsrScope
  | promptJsrPackageName
  | promptShouldFixJsr
  | promptAddLicense
  | promptJsrTokenSetup
  | gitInit
  | writeGitignore
  | setGitConfig (key : String)
  | stageAll
  | gitCommit (message : String)
  | createTag (name : String)
  | push (remote : String) (ref : String) (force : Bool)
  | publishRegistry (r : RegistryType)
  | registryErrorLogged (r : RegistryType)
  | writeDenoConfig (cfg : DenoConfig)
  | dryRunReport (ref : String) (remote : String) (registries : List String)
deriving DecidableEq, Repr

/-! ## Publish pipeline (publisher.ts) -/

/-- publisher.ts PublishOptions, built by the CLI front end. -/
structure PublishOptions where
  branch : Option String := none
  tag : Option String := none
  createTag : Option String := none
  remote : Option String := none
  skipRegistries : Option Bool := none
  registries : Option (List String) := none
  force : Option Bool := none
  dryRun : Option Bool := none
  verbose : Option Bool := none
deriving DecidableEq, Repr

/-- remote.ts getPrimaryRemote: first error, then empty-list error,
then prefer the remote named origin, else the first remote. -/
def getPrimaryRemote (env : Env) : Result RemoteInfo :=
  match env.remotes with
  | Result.err e => Result.err e
  | Result.ok remotes =>
    match remotes with
    | [] => Result.err ⟨"No remote repository found", "NO_REMOTE"⟩
    | first :: _ =>
      let primaryRemote :=
        (remotes.find? (fun r => r.name == "origin")).getD first
      Result.ok (getRemoteInfo primaryRemote)

/-- auth.ts verifyAuth by way of checkPushPermissions: a thrown probe
becomes AUTH_CHECK_FAILED, a false probe becomes AUTH_FAILED after
displaying setup instructions. -/
def verifyAuth (env : Env) : Result Unit :=
  match env.canPushCall with
  | CallOutcome.threw =>
      Result.err ⟨"Failed to check push permissions", "AUTH_CHECK_FAILED"⟩
  | CallOutcome.ok false =>
      Result.err ⟨"Push permissions check failed. Please set up authentication.", "AUTH_FAILED"⟩
  | CallOutcome.ok true => Result.ok ()

/-- publisher.ts verifyGitSetup.  The interactive promptInitGit used
here has no try/catch, so a cancelled prompt escapes to the top-level
catch of publish, which converts it into the generic PUBLISH_FAILED
error; that conversion is inlined here. -/
def verifyGitSetup (env : Env) : Result Unit × List Event :=
  if !env.gitInstalled then
    (Result.err ⟨"Git not installed", "GIT_NOT_INSTALLED"⟩, [])
  else
    match env.gitStatus with
    | Result.err e => (Result.err e, [])
    | Result.ok status =>
      if !status.isRepo then
        match env.initGitAnswer with
        | PromptOutcome.cancelled =>
            (Result.err ⟨"Publish workflow failed", "PUBLISH_FAILED"⟩,
             [Event.promptInitGit])
        | PromptOutcome.answer true =>
            match env.initRepo with
            | Result.err e =>
                (Result.err e, [Event.promptInitGit, Event.gitInit])
            | Result.ok _ =>
                (Result.ok (), [Event.promptInitGit, Event.gitInit])
        | PromptOutcome.answer false =>
            (Result.err ⟨"Not a Git repository and user declined initialization", "NOT_GIT_REPO"⟩,
             [Event.promptInitGit])
      else (Result.ok (), [])

/-- publisher.ts determineGitRef: the four resolution strategies in
priority order.  Option fields follow JavaScript truthiness, so an
empty string does not count as supplied. -/
def determineGitRef (opts : PublishOptions) (env : Env) :
    Result String × List Event :=
  if truthy opts.branch then (Result.ok (opts.branch.getD ""), [])
  else if truthy opts.tag then (Result.ok (opts.tag.getD ""), [])
  else if truthy opts.createTag then
    let n := opts.createTag.getD ""
    match env.createTagResult n with
    | Result.err e => (Result.err e, [Event.createTag n])
    | Result.ok _ => (Result.ok n, [Event.createTag n])
  else
    match env.publishTypeAnswer with
    | PromptOutcome.cancelled =>
        (Result.err ⟨"Selection cancelled", "PROMPT_CANCELLED"⟩,
         [Event.promptPublishType])
    | PromptOutcome.answer PublishType.branch =>
      match env.branches with
      | Result.err e => (Result.err e, [Event.promptPublishType])
      | Result.ok branches =>
        -- the fresh getGitStatus call here only feeds the prompt default
        match branches with
        | [] =>
            (Result.err ⟨"No branches available", "NO_BRANCHES"⟩,
             [Event.promptPublishType])
        | _ :: _ =>
          match env.selectBranchAnswer with
          | PromptOutcome.cancelled =>
              (Result.err ⟨"Branch selection cancelled", "PROMPT_CANCELLED"⟩,
               [Event.promptPublishType, Event.promptSelectBranch])
          | PromptOutcome.answer b =>
              (Result.ok b, [Event.promptPublishType, Event.promptSelectBranch])
    | PromptOutcome.answer PublishType.tag =>
      match env.tags with
      | Result.err e => (Result.err e, [Event.promptPublishType])
      | Result.ok tags =>
        match tags with
        | [] =>
            (Result.err ⟨"No tags available", "NO_TAGS"⟩,
             [Event.promptPublishType])
        | _ :: _ =>
          match env.selectTagAnswer with
          | PromptOutcome.cancelled =>
              (Result.err ⟨"Tag selection cancelled", "PROMPT_CANCELLED"⟩,
               [Event.promptPublishType, Event.promptSelectTag])
          | PromptOutcome.answer t =>
              (Result.ok t, [Event.promptPublishType, Event.promptSelectTag])
    | PromptOutcome.answer PublishType.createTag =>
      match env.createTagAnswer with
      | PromptOutcome.cancelled =>
          (Result.err ⟨"Tag creation cancelled", "PROMPT_CANCELLED"⟩,
           [Event.promptPublishType, Event.promptCreateTag])
      | PromptOutcome.answer (n, _msg) =>
        match env.createTagResult n with
        | Result.err e =>
            (Result.err e,
             [Event.promptPublishType, Event.promptCreateTag, Event.createTag n])
        | Result.ok _ =>
            (Result.ok n,
             [Event.promptPublishType, Event.promptCreateTag, Event.createTag n])

/-- interactive.ts promptSelectRegistries, loop over the available
registries; a cancellation anywhere surfaces as PROMPT_CANCELLED. -/
def selectLoop (env : Env) : List String → Result (List String) × List Event
  | [] => (Result.ok [], [])
  | r :: rest =>
    match env.registryConfirm r with
    | PromptOutcome.cancelled =>
        (Result.err ⟨"Registry selection cancelled", "PROMPT_CANCELLED"⟩,
         [Event.promptRegistryConfirm r])
    | PromptOutcome.answer b =>
      match selectLoop env rest with
      | (Result.err e, evs) =>
          (Result.err e, Event.promptRegistryConfirm r :: evs)
      | (Result.ok l, evs) =>
          (Result.ok (if b then r :: l else l),
           Event.promptRegistryConfirm r :: evs)

/-- interactive.ts promptSelectRegistries: the single-registry case is
one confirmation, otherwise one confirmation per registry. -/
def promptSelectRegistries (available : List String) (env : Env) :
    Result (List String) × List Event :=
  match available with
  | [] => (Result.ok [], [])
  | [single] =>
    match env.registryConfirm single with
    | PromptOutcome.cancelled =>
        (Result.err ⟨"Registry selection cancelled", "PROMPT_CANCELLED"⟩,
         [Event.promptRegistryConfirm single])
    | PromptOutcome.answer true =>
        (Result.ok [single], [Event.promptRegistryConfirm single])
    | PromptOutcome.answer false =>
        (Result.ok [], [Event.promptRegistryConfirm single])
  | _ => selectLoop env available

/-- Phase 6 of publish: the selection is empty and no prompt is issued
when skip-registries is set or nothing was detected; otherwise the
confirmed display names are mapped back to registry kinds. -/
def workingSelection (opts : PublishOptions) (env : Env) :
    Result (List RegistryType) × List Event :=
  let registries := detectRegistries env.reg
  if opts.skipRegistries == some true || registries.isEmpty then
    (Result.ok [], [])
  else
    match promptSelectRegistries
        (registries.map (fun r => getRegistryName r.registry)) env with
    | (Result.err e, evs) => (Result.err e, evs)
    | (Result.ok names, evs) =>
        (Result.ok (names.map (fun name =>
            if name == "npm" then RegistryType.npm else RegistryType.jsr)),
         evs)

/-- Phase 8 registry loop of publish: every selected registry is
attempted in order; a failed publish is logged and the loop
continues. -/
def publishLoop (env : Env) : List RegistryType → List Event
  | [] => []
  | r :: rest =>
    match env.publishRegistryResult r with
    | Result.ok _ => Event.publishRegistry r :: publishLoop env rest
    | Result.err _ =>
        Event.publishRegistry r :: Event.registryErrorLogged r :: publishLoop env rest

/-- publisher.ts publish: the end-to-end pipeline.  Phases in order:
verify git, verify remote, verify authentication, resolve the ref,
detect registries, select registries, confirm (skipped on dry-run),
execute (dry-run report, or push followed by the registry loop). -/
def publish (opts : PublishOptions) (env : Env) : Result Unit × List Event :=
  match verifyGitSetup env with
  | (Result.err e, evs) => (Result.err e, evs)
  | (Result.ok _, evs1) =>
    match getPrimaryRemote env with
    | Result.err e => (Result.err e, evs1)
    | Result.ok remote =>
      match verifyAuth env with
      | Result.err e => (Result.err e, evs1)
      | Result.ok _ =>
        match determineGitRef opts env with
        | (Result.err e, evs2) => (Result.err e, evs1 ++ evs2)
        | (Result.ok gitRef, evs2) =>
          match workingSelection opts env with
          | (Result.err e, evs3) => (Result.err e, evs1 ++ evs2 ++ evs3)
          | (Result.ok selectedRegistries, evs3) =>
            if opts.dryRun == some true then
              (Result.ok (),
               evs1 ++ evs2 ++ evs3 ++
                 [Event.dryRunReport gitRef remote.name
                   (selectedRegistries.map getRegistryName)])
            else
              let confirmed :=
                match env.confirmPublishAnswer with
                | PromptOutcome.answer b => b
                | PromptOutcome.cancelled => false
              let evsC := evs1 ++ evs2 ++ evs3 ++ [Event.promptConfirmPublish]
              if !confirmed then (Result.ok (), evsC)
              else
                let remoteName :=
                  if truthy opts.remote then opts.remote.getD "" else "origin"
                let forceFlag := opts.force == some true
                let evsP := evsC ++ [Event.push remoteName gitRef forceFlag]
                match env.push remoteName gitRef forceFlag with
                | Result.err e => (Result.err e, evsP)
                | Result.ok _ =>
                    (Result.ok (), evsP ++ publishLoop env selectedRegistries)

/-! ## Commit-Pending-Changes remediation (auto_commit module) -/

/-- auto_commit GitChanges: classification of uncommitted files. -/
structure GitChanges where
  modified : List String := []
  added : List String := []
  deleted : List String := []
  untracked : List String := []
  total : Nat := 0
deriving DecidableEq, Repr

/-- auto_commit parseGitStatus: classify each porcelain line by its
two-character status code, first match among M, A, D, ? wins. -/
def parseGitStatus (output : String) : GitChanges :=
  let lines := (splitCh '\n' output).filter (fun l => !(trimStr l).isEmpty)
  let step := fun (acc : GitChanges) (line : String) =>
    let status := line.toList.take 2
    let file := trimStr (String.mk (line.toList.drop 3))
    if status.contains 'M' then { acc with modified := acc.modified ++ [file] }
    else if status.contains 'A' then { acc with added := acc.added ++ [file] }
    else if status.contains 'D' then { acc with deleted := acc.deleted ++ [file] }
    else if status.contains '?' then { acc with untracked := acc.untracked ++ [file] }
    else acc
  let c := lines.foldl step {}
  { c with total :=
      c.modified.length + c.added.length + c.deleted.length + c.untracked.length }

/-- External outcomes consulted by the auto-commit sub-flow. -/
structure CommitEnv where
  statusPorcelain : Result String := Result.ok ""
  commitConfirmAnswer : PromptOutcome Bool := PromptOutcome.answer true
  commitUseDefaultAnswer : PromptOutcome Bool := PromptOutcome.answer true
  commitMessageAnswer : PromptOutcome String := PromptOutcome.cancelled
  addResult : Result String := Result.ok ""
  commitCmdResult : Result String := Result.ok ""

/-- auto_commit getUncommittedChanges. -/
def getUncommittedChanges (env : CommitEnv) : Result GitChanges :=
  match env.statusPorcelain with
  | Result.err _ =>
      Result.err ⟨"Failed to get git status", "GIT_STATUS_FAILED"⟩
  | Result.ok output => Result.ok (parseGitStatus output)

/-- auto_commit generateCommitMessage: additions dominate, then
modifications, then deletions, else a generic fallback; a single file
of the dominant kind is named verbatim. -/
def generateCommitMessage (changes : GitChanges) : String :=
  if !changes.added.isEmpty then
    if changes.added.length == 1 then "Add " ++ changes.added.headD ""
    else "Add " ++ toString changes.added.length ++ " files"
  else if !changes.modified.isEmpty then
    if changes.modified.length == 1 then "Update " ++ changes.modified.headD ""
    else "Update " ++ toString changes.modified.length ++ " files"
  else if !changes.deleted.isEmpty then
    if changes.deleted.length == 1 then "Delete " ++ changes.deleted.headD ""
    else "Delete " ++ toString changes.deleted.length ++ " files"
  else "Update files"

/-- auto_commit promptCommitDetails: confirmation, then either the
synthesized default message or a free-text override; a cancellation in
any of the three prompts is caught and becomes
COMMIT_PROMPT_CANCELLED. -/
def promptCommitDetails (changes : GitChanges) (env : CommitEnv) :
    Result (Bool × String) × List Event :=
  match env.commitConfirmAnswer with
  | PromptOutcome.cancelled =>
      (Result.err ⟨"Commit prompt cancelled", "COMMIT_PROMPT_CANCELLED"⟩,
       [Event.promptCommitConfirm])
  | PromptOutcome.answer false =>
      (Result.ok (false, ""), [Event.promptCommitConfirm])
  | PromptOutcome.answer true =>
    let suggestedMessage := generateCommitMessage changes
    match env.commitUseDefaultAnswer with
    | PromptOutcome.cancelled =>
        (Result.err ⟨"Commit prompt cancelled", "COMMIT_PROMPT_CANCELLED"⟩,
         [Event.promptCommitConfirm, Event.promptCommitUseDefault])
    | PromptOutcome.answer true =>
        (Result.ok (true, trimStr suggestedMessage),
         [Event.promptCommitConfirm, Event.promptCommitUseDefault])
    | PromptOutcome.answer false =>
      match env.commitMessageAnswer with
      | PromptOutcome.cancelled =>
          (Result.err ⟨"Commit prompt cancelled", "COMMIT_PROMPT_CANCELLED"⟩,
           [Event.promptCommitConfirm, Event.promptCommitUseDefault,
            Event.promptCommitMessage])
      | PromptOutcome.answer m =>
          (Result.ok (true, trimStr m),
           [Event.promptCommitConfirm, Event.promptCommitUseDefault,
            Event.promptCommitMessage])

/-- auto_commit executeCommit: stage everything, then commit. -/
def executeCommit (message : String) (env : CommitEnv) :
    Result Unit × List Event :=
  match env.addResult with
  | Result.err _ =>
      (Result.err ⟨"Failed to stage changes", "GIT_ADD_FAILED"⟩,
       [Event.stageAll])
  | Result.ok _ =>
    match env.commitCmdResult with
    | Result.err _ =>
        (Result.err ⟨"Failed to create commit", "GIT_COMMIT_FAILED"⟩,
         [Event.stageAll, Event.gitCommit message])
    | Result.ok _ => (Result.ok (), [Event.stageAll, Event.gitCommit message])

/-- auto_commit hasUncommittedChanges: false when the status query
itself fails. -/
def hasUncommittedChanges (env : CommitEnv) : Bool :=
  match getUncommittedChanges env with
  | Result.err _ => false
  | Result.ok changes => changes.total > 0

/-- auto_commit autoCommitChanges: returns immediately on a clean
tree; a decline is the distinguishable COMMIT_DECLINED error. -/
def autoCommitChanges (env : CommitEnv) : Result Unit × List Event :=
  match getUncommittedChanges env with
  | Result.err e => (Result.err e, [])
  | Result.ok changes =>
    if changes.total == 0 then (Result.ok (), [])
    else
      match promptCommitDetails changes env with
      | (Result.err e, evs) => (Result.err e, evs)
      | (Result.ok (confirm, message), evs) =>
        if !confirm then
          (Result.err ⟨"User declined to commit changes", "COMMIT_DECLINED"⟩, evs)
        else
          match executeCommit message env with
          | (Result.err e, evs2) => (Result.err e, evs ++ evs2)
          | (Result.ok _, evs2) => (Result.ok (), evs ++ evs2)

/-! ## Initialize-Repository remediation (auto_init module) -/

/-- External outcomes consulted by the auto-init sub-flow. -/
structure InitEnv where
  isRepo : Bool := false
  initAnswer : PromptOutcome Bool := PromptOutcome.answer true
  gitInitResult : Result String := Result.ok ""
  gitignoreExists : Bool := false
  writeGitignoreCall : CallOutcome Unit := CallOutcome.ok ()
  configNameOut : Result String := Result.ok ""
  configEmailOut : Result String := Result.ok ""
  nameAnswer : PromptOutcome String := PromptOutcome.cancelled
  emailAnswer : PromptOutcome String := PromptOutcome.cancelled
  setNameResult : Result String := Result.ok ""
  setEmailResult : Result String := Result.ok ""
  porcelainOut : Result String := Result.ok ""
  customizeAnswer : PromptOutcome Bool := PromptOutcome.answer false
  initMsgAnswer : PromptOutcome String := PromptOutcome.cancelled
  addResult : Result String := Result.ok ""
  commitCmdResult : Result String := Result.ok ""

/-- auto_init needsGitInit. -/
def needsGitInit (env : InitEnv) : Bool := !env.isRepo

/-- auto_init createGitignoreIfNeeded: never overwrites an existing
ignore file. -/
def createGitignoreIfNeeded (env : InitEnv) : Result Unit × List Event :=
  if env.gitignoreExists then (Result.ok (), [])
  else
    match env.writeGitignoreCall with
    | CallOutcome.ok _ => (Result.ok (), [Event.writeGitignore])
    | CallOutcome.threw =>
        (Result.err ⟨"Failed to create .gitignore", "GITIGNORE_CREATE_FAILED"⟩,
         [Event.writeGitignore])

/-- auto_init initGit. -/
def initGit (env : InitEnv) : Result Unit × List Event :=
  match env.gitInitResult with
  | Result.err _ =>
      (Result.err ⟨"Failed to initialize Git repository", "GIT_INIT_FAILED"⟩,
       [Event.gitInit])
  | Result.ok _ => (Result.ok (), [Event.gitInit])

/-- auto_init ensureGitUser: prompts individually for any missing
identity field; a cancellation of either prompt is caught and becomes
GIT_CONFIG_CANCELLED. -/
def ensureGitUser (env : InitEnv) : Result Unit × List Event :=
  let hasName :=
    match env.configNameOut with
    | Result.ok s => s.length > 0
    | Result.err _ => false
  let hasEmail :=
    match env.configEmailOut with
    | Result.ok s => s.length > 0
    | Result.err _ => false
  if hasName && hasEmail then (Result.ok (), [])
  else
    let namePhase : Result Unit × List Event :=
      if !hasName then
        match env.nameAnswer with
        | PromptOutcome.cancelled =>
            (Result.err ⟨"Git user configuration cancelled", "GIT_CONFIG_CANCELLED"⟩,
             [Event.promptGitUserName])
        | PromptOutcome.answer _ =>
          match env.setNameResult with
          | Result.err _ =>
              (Result.err ⟨"Failed to set Git user name", "GIT_CONFIG_FAILED"⟩,
               [Event.promptGitUserName, Event.setGitConfig "user.name"])
          | Result.ok _ =>
              (Result.ok (),
               [Event.promptGitUserName, Event.setGitConfig "user.name"])
      else (Result.ok (), [])
    match namePhase with
    | (Result.err e, evs) => (Result.err e, evs)
    | (Result.ok _, evs) =>
      if !hasEmail then
        match env.emailAnswer with
        | PromptOutcome.cancelled =>
            (Result.err ⟨"Git user configuration cancelled", "GIT_CONFIG_CANCELLED"⟩,
             evs ++ [Event.promptGitUserEmail])
        | PromptOutcome.answer _ =>
          match env.setEmailResult with
          | Result.err _ =>
              (Result.err ⟨"Failed to set Git user email", "GIT_CONFIG_FAILED"⟩,
               evs ++ [Event.promptGitUserEmail, Event.setGitConfig "user.email"])
          | Result.ok _ =>
              (Result.ok (),
               evs ++ [Event.promptGitUserEmail, Event.setGitConfig "user.email"])
      else (Result.ok (), evs)

/-- auto_init createInitialCommit: a no-op when the tree is empty; the
message prompts swallow cancellation and fall back to the default
message. -/
def createInitialCommit (env : InitEnv) : Result Unit × List Event :=
  match env.porcelainOut with
  | Result.err _ =>
      (Result.err ⟨"Failed to check git status", "GIT_STATUS_FAILED"⟩, [])
  | Result.ok out =>
    if out.length == 0 then (Result.ok (), [])
    else
      let msgPhase : String × List Event :=
        match env.customizeAnswer with
        | PromptOutcome.cancelled =>
            ("Initial commit", [Event.promptCustomizeInitMsg])
        | PromptOutcome.answer false =>
            ("Initial commit", [Event.promptCustomizeInitMsg])
        | PromptOutcome.answer true =>
          match env.initMsgAnswer with
          | PromptOutcome.cancelled =>
              ("Initial commit",
               [Event.promptCustomizeInitMsg, Event.promptInitCommitMessage])
          | PromptOutcome.answer m =>
              (m, [Event.promptCustomizeInitMsg, Event.promptInitCommitMessage])
      let commitMessage := msgPhase.1
      let evs := msgPhase.2
      match env.addResult with
      | Result.err _ =>
          (Result.err ⟨"Failed to add files to Git", "GIT_ADD_FAILED"⟩,
           evs ++ [Event.stageAll])
      | Result.ok _ =>
        match env.commitCmdResult with
        | Result.err _ =>
            (Result.err ⟨"Failed to create initial commit", "GIT_COMMIT_FAILED"⟩,
             evs ++ [Event.stageAll, Event.gitCommit commitMessage])
        | Result.ok _ =>
            (Result.ok (),
             evs ++ [Event.stageAll, Event.gitCommit commitMessage])

/-- auto_init autoInitializeGit: success immediately when already a
repository; a declined prompt is the distinguishable GIT_INIT_DECLINED
error; ignore-file and initial-commit failures degrade to warnings. -/
def autoInitializeGit (env : InitEnv) : Result Unit × List Event :=
  if env.isRepo then (Result.ok (), [])
  else
    let shouldInit :=
      match env.initAnswer with
      | PromptOutcome.answer b => b
      | PromptOutcome.cancelled => false
    if !shouldInit then
      (Result.err ⟨"User declined Git initialization", "GIT_INIT_DECLINED"⟩,
       [Event.promptInitGit])
    else
      match initGit env with
      | (Result.err e, evsA) => (Result.err e, Event.promptInitGit :: evsA)
      | (Result.ok _, evsA) =>
        let gi := createGitignoreIfNeeded env
        let evsB := Event.promptInitGit :: evsA ++ gi.2
        match ensureGitUser env with
        | (Result.err e, evsC) => (Result.err e, evsB ++ evsC)
        | (Result.ok _, evsC) =>
          let ic := createInitialCommit env
          (Result.ok (), evsB ++ evsC ++ ic.2)

/-! ## Fix-Registry-Manifest remediation (jsr_validator autoFixJsrConfig) -/

/-- External outcomes consulted by the JSR auto-fix sub-flow. -/
structure FixEnv where
  shouldFixAnswer : PromptOutcome Bool := PromptOutcome.answer true
  scopeAnswer : PromptOutcome String := PromptOutcome.cancelled
  pkgNameAnswer : PromptOutcome String := PromptOutcome.cancelled
  fileExists : String → Bool := fun _ => false
  addLicenseAnswer : PromptOutcome Bool := PromptOutcome.answer true
  writeResult : Result Unit := Result.ok ()
  dirName : String := "package"

/-- Sanitization applied to the directory name when suggesting a
package name: lowercase then replace anything outside [a-z0-9-]. -/
def sanitizePkgName (s : String) : String :=
  String.mk ((s.toList.map Char.toLower).map
    (fun c => if isScopeChar c then c else '-'))

/-- The ordered candidate entry files probed for the exports default. -/
def mainFiles : List String := ["mod.ts", "index.ts", "main.ts", "src/mod.ts"]

/-- jsr_validator autoFixJsrConfig: immediate success when the
validation is already valid; fills in only invalid fields; the two
bare confirmation prompts have no try/catch, so their cancellation
escapes as an exception. -/
def autoFixJsrConfig (validation : JsrValidation) (env : FixEnv) :
    FlowResult Unit × List Event :=
  if validation.isValid then (FlowResult.ret (Result.ok ()), [])
  else
    match env.shouldFixAnswer with
    | PromptOutcome.cancelled => (FlowResult.thrown, [Event.promptShouldFixJsr])
    | PromptOutcome.answer false =>
        (FlowResult.ret (Result.err ⟨"User declined auto-fix", "AUTO_FIX_DECLINED"⟩),
         [Event.promptShouldFixJsr])
    | PromptOutcome.answer true =>
      let config := validation.currentConfig.getD {}
      -- name step
      let namePhase : FlowResult DenoConfig × List Event :=
        if !validation.hasValidName then
          match env.scopeAnswer with
          | PromptOutcome.cancelled =>
              (FlowResult.ret (Result.err ⟨"Scope prompt cancelled", "SCOPE_PROMPT_CANCELLED"⟩),
               [Event.promptJsrScope])
          | PromptOutcome.answer scope =>
            match env.pkgNameAnswer with
            | PromptOutcome.cancelled =>
                (FlowResult.ret (Result.err ⟨"Package name prompt cancelled", "NAME_PROMPT_CANCELLED"⟩),
                 [Event.promptJsrScope, Event.promptJsrPackageName])
            | PromptOutcome.answer pkgName =>
                (FlowResult.ret (Result.ok
                   { config with
                       name := some ("@" ++ trimStr scope ++ "/" ++ trimStr pkgName) }),
                 [Event.promptJsrScope, Event.promptJsrPackageName])
        else (FlowResult.ret (Result.ok config), [])
      match namePhase with
      | (FlowResult.thrown, evs) => (FlowResult.thrown, evs)
      | (FlowResult.ret (Result.err e), evs) => (FlowResult.ret (Result.err e), evs)
      | (FlowResult.ret (Result.ok cfg1), evs1) =>
        let cfg2 :=
          if !validation.hasValidVersion then { cfg1 with version := some "0.1.0" }
          else cfg1
        let cfg3 :=
          if !validation.hasExports then
            match mainFiles.find? env.fileExists with
            | some foundMain =>
                { cfg2 with exports := some (ExportsField.str ("./" ++ foundMain)) }
            | none =>
                { cfg2 with exports := some (ExportsField.str "./mod.ts") }
          else cfg2
        let licensePhase : FlowResult DenoConfig × List Event :=
          if !validation.hasLicense then
            match env.addLicenseAnswer with
            | PromptOutcome.cancelled =>
                (FlowResult.thrown, [Event.promptAddLicense])
            | PromptOutcome.answer true =>
                (FlowResult.ret (Result.ok { cfg3 with license := some "MIT" }),
                 [Event.promptAddLicense])
            | PromptOutcome.answer false =>
                (FlowResult.ret (Result.ok cfg3), [Event.promptAddLicense])
          else (FlowResult.ret (Result.ok cfg3), [])
        match licensePhase with
        | (FlowResult.thrown, evs2) => (FlowResult.thrown, evs1 ++ evs2)
        | (FlowResult.ret (Result.err e), evs2) =>
            (FlowResult.ret (Result.err e), evs1 ++ evs2)
        | (FlowResult.ret (Result.ok finalCfg), evs2) =>
          match env.writeResult with
          | Result.err e =>
              (FlowResult.ret (Result.err e),
               evs1 ++ evs2 ++ [Event.writeDenoConfig finalCfg])
          | Result.ok _ =>
              (FlowResult.ret (Result.ok ()),
               evs1 ++ evs2 ++ [Event.writeDenoConfig finalCfg])

/-! ## JSR authentication helper (jsr_auth.ts) -/

/-- External state consulted by verifyJsrAuth. -/
structure JsrAuthEnv where
  jsrToken : Option String := none
  setupAnswer : PromptOutcome Unit := PromptOutcome.answer ()
  tokenAfterSetup : Option String := none

/-- jsr_auth hasJsrToken: set and non-empty. -/
def hasJsrToken (token : Option String) : Bool :=
  match token with
  | none => false
  | some s => s.length > 0

/-- jsr_auth verifyJsrAuth: immediate success when the token is
present; otherwise a guided setup prompt, a re-check, and a typed
error when the token is still absent. -/
def verifyJsrAuth (env : JsrAuthEnv) : Result Bool × List Event :=
  if hasJsrToken env.jsrToken then (Result.ok true, [])
  else
    match env.setupAnswer with
    | PromptOutcome.cancelled =>
        (Result.err ⟨"JSR token setup cancelled", "JSR_TOKEN_SETUP_CANCELLED"⟩,
         [Event.promptJsrTokenSetup])
    | PromptOutcome.answer _ =>
      if hasJsrToken env.tokenAfterSetup then
        (Result.ok true, [Event.promptJsrTokenSetup])
      else
        (Result.err ⟨"JSR_TOKEN not set after setup", "JSR_TOKEN_NOT_SET"⟩,
         [Event.promptJsrTokenSetup])

/-! ## Event classifiers -/

/-- Push events. -/
def isPushEv : Event → Bool
  | Event.push _ _ _ => true
  | _ => false

/-- Registry-publish events. -/
def isPubRegEv : Event → Bool
  | Event.publishRegistry _ => true
  | _ => false

/-- The final confirmation prompt. -/
def isConfirmEv : Event → Bool
  | Event.promptConfirmPublish => true
  | _ => false

/-- Events only the Commit-Pending-Changes remediation can produce. -/
def commitRemediationEv : Event → Bool
  | Event.promptCommitConfirm => true
  | Event.promptCommitUseDefault => true
  | Event.promptCommitMessage => true
  | Event.stageAll => true
  | Event.gitCommit _ => true
  | _ => false

/-- Events only the Fix-Registry-Manifest remediation and the JSR
token setup can produce. -/
def jsrRemediationEv : Event → Bool
  | Event.promptShouldFixJsr => true
  | Event.promptJsrScope => true
  | Event.promptJsrPackageName => true
  | Event.promptAddLicense => true
  | Event.promptJsrTokenSetup => true
  | Event.writeDenoConfig _ => true
  | _ => false

/-! ## Trace lemmas for the pipeline helpers -/

theorem verifyGitSetup_events (env : Env) (p : Event → Bool)
    (h1 : p Event.promptInitGit = true) (h2 : p Event.gitInit = true) :
    ∀ r evs, verifyGitSetup env = (r, evs) → evs.all p = true := by
  intro r evs h
  unfold verifyGitSetup at h
  split at h
  · injection h with hr he; subst he; simp
  · split at h
    · injection h with hr he; subst he; simp
    · split at h
      · split at h
        · injection h with hr he; subst he; simp [h1]
        · split at h
          · injection h with hr he; subst he; simp [h1, h2]
          · injection h with hr he; subst he; simp [h1, h2]
        · injection h with hr he; subst he; simp [h1]
      · injection h with hr he; subst he; simp

theorem determineGitRef_events (opts : PublishOptions) (env : Env)
    (p : Event → Bool)
    (h1 : p Event.promptPublishType = true)
    (h2 : p Event.promptSelectBranch = true)
    (h3 : p Event.promptSelectTag = true)
    (h4 : p Event.promptCreateTag = true)
    (h5 : ∀ n, p (Event.createTag n) = true) :
    ∀ r evs, determineGitRef opts env = (r, evs) → evs.all p = true := by
  intro r evs h
  unfold determineGitRef at h
  dsimp only at h
  split at h
  · injection h with hr he; subst he; simp
  · split at h
    · injection h with hr he; subst he; simp
    · split at h
      · split at h
        · injection h with hr he; subst he; simp [h5]
        · injection h with hr he; subst he; simp [h5]
      · split at h
        · injection h with hr he; subst he; simp [h1]
        · split at h
          · injection h with hr he; subst he; simp [h1]
          · split at h
            · injection h with hr he; subst he; simp [h1]
            · split at h
              · injection h with hr he; subst he; simp [h1, h2]
              · injection h with hr he; subst he; simp [h1, h2]
        · split at h
          · injection h with hr he; subst he; simp [h1]
          · split at h
            · injection h with hr he; subst he; simp [h1]
            · split at h
              · injection h with hr he; subst he; simp [h1, h3]
              · injection h with hr he; subst he; simp [h1, h3]
        · split at h
          · injection h with hr he; subst he; simp [h1, h4]
          · split at h
            · injection h with hr he; subst he; simp [h1, h4, h5]
            · injection h with hr he; subst he; simp [h1, h4, h5]

theorem selectLoop_events (env : Env) (p : Event → Bool)
    (h1 : ∀ s, p (Event.promptRegistryConfirm s) = true) :
    ∀ l r evs, selectLoop env l = (r, evs) → evs.all p = true := by
  intro l
  induction l with
  | nil => intro r evs h; injection h with hr he; subst he; simp
  | cons x rest ih =>
    intro r evs h
    unfold selectLoop at h
    split at h
    · injection h with hr he; subst he; simp [h1]
    · split at h
      · rename_i heq
        injection h with hr he; subst he
        simp [h1, ih _ _ heq]
      · rename_i heq
        injection h with hr he; subst he
        simp [h1, ih _ _ heq]

theorem promptSelectRegistries_events (available : List String) (env : Env)
    (p : Event → Bool)
    (h1 : ∀ s, p (Event.promptRegistryConfirm s) = true) :
    ∀ r evs, promptSelectRegistries available env = (r, evs) → evs.all p = true := by
  intro r evs h
  unfold promptSelectRegistries at h
  split at h
  · injection h with hr he; subst he; simp
  · split at h
    · injection h with hr he; subst he; simp [h1]
    · injection h with hr he; subst he; simp [h1]
    · injection h with hr he; subst he; simp [h1]
  · exact selectLoop_events env p h1 _ _ _ h

theorem workingSelection_events (opts : PublishOptions) (env : Env)
    (p : Event → Bool)
    (h1 : ∀ s, p (Event.promptRegistryConfirm s) = true) :
    ∀ r evs, workingSelection opts env = (r, evs) → evs.all p = true := by
  intro r evs h
  unfold workingSelection at h
  dsimp only at h
  split at h
  · injection h with hr he; subst he; simp
  · split at h
    · rename_i heq
      injection h with hr he; subst he
      exact promptSelectRegistries_events _ env p h1 _ _ heq
    · rename_i heq
      injection h with hr he; subst he
      exact promptSelectRegistries_events _ env p h1 _ _ heq

theorem publishLoop_events (env : Env) (p : Event → Bool)
    (h1 : ∀ t, p (Event.publishRegistry t) = true)
    (h2 : ∀ t, p (Event.registryErrorLogged t) = true) :
    ∀ l, (publishLoop env l).all p = true := by
  intro l
  induction l with
  | nil => simp [publishLoop]
  | cons x rest ih =>
    unfold publishLoop
    split <;> simp [h1, h2, ih]

theorem publish_unfold (opts : PublishOptions) (env : Env)
    (e1 e2 e3 : List Event) (remote : RemoteInfo) (ref : String)
    (sel : List RegistryType)
    (h1 : verifyGitSetup env = (Result.ok (), e1))
    (h2 : getPrimaryRemote env = Result.ok remote)
    (h3 : verifyAuth env = Result.ok ())
    (h4 : determineGitRef opts env = (Result.ok ref, e2))
    (h5 : workingSelection opts env = (Result.ok sel, e3)) :
    publish opts env =
      if opts.dryRun == some true then
        (Result.ok (),
         e1 ++ e2 ++ e3 ++
           [Event.dryRunReport ref remote.name (sel.map getRegistryName)])
      else
        let confirmed :=
          match env.confirmPublishAnswer with
          | PromptOutcome.answer b => b
          | PromptOutcome.cancelled => false
        let evsC := e1 ++ e2 ++ e3 ++ [Event.promptConfirmPublish]
        if !confirmed then (Result.ok (), evsC)
        else
          let remoteName :=
            if truthy opts.remote then opts.remote.getD "" else "origin"
          let forceFlag := opts.force == some true
          let evsP := evsC ++ [Event.push remoteName ref forceFlag]
          match env.push remoteName ref forceFlag with
          | Result.err e => (Result.err e, evsP)
          | Result.ok _ => (Result.ok (), evsP ++ publishLoop env sel) := by
  unfold publish
  rw [h1, h2, h3, h4, h5]

theorem publish_events (opts : PublishOptions) (env : Env) (p : Event → Bool)
    (hInitGit : p Event.promptInitGit = true)
    (hGitInit : p Event.gitInit = true)
    (hType : p Event.promptPublishType = true)
    (hSelB : p Event.promptSelectBranch = true)
    (hSelT : p Event.promptSelectTag = true)
    (hCT : p Event.promptCreateTag = true)
    (hCTag : ∀ n, p (Event.createTag n) = true)
    (hRC : ∀ s, p (Event.promptRegistryConfirm s) = true)
    (hConf : p Event.promptConfirmPublish = true)
    (hPush : ∀ a b c, p (Event.push a b c) = true)
    (hPub : ∀ t, p (Event.publishRegistry t) = true)
    (hLog : ∀ t, p (Event.registryErrorLogged t) = true)
    (hDry : ∀ a b c, p (Event.dryRunReport a b c) = true) :
    ((publish opts env).2).all p = true := by
  unfold publish
  rcases hv : verifyGitSetup env with ⟨rv, ev1⟩
  have hv1 := verifyGitSetup_events env p hInitGit hGitInit _ _ hv
  cases rv with
  | err e => simpa using hv1
  | ok _ =>
    cases hw : getPrimaryRemote env with
    | err e => simpa using hv1
    | ok remote =>
      cases ha : verifyAuth env with
      | err e => simpa using hv1
      | ok _ =>
        rcases hd : determineGitRef opts env with ⟨rd, ev2⟩
        have hd1 := determineGitRef_events opts env p hType hSelB hSelT hCT hCTag _ _ hd
        cases rd with
        | err e => simp [hv1, hd1]
        | ok ref =>
          rcases hs : workingSelection opts env with ⟨rs, ev3⟩
          have hs1 := workingSelection_events opts env p hRC _ _ hs
          cases rs with
          | err e => simp [hv1, hd1, hs1]
          | ok sel =>
            by_cases hdr : (opts.dryRun == some true) = true
            · simp [hdr, hv1, hd1, hs1, hDry]
            · simp only [hdr, Bool.false_eq_true, if_false,
                Bool.not_eq_true']
              cases hc : env.confirmPublishAnswer with
              | cancelled => simp [hv1, hd1, hs1, hConf]
              | answer b =>
                cases b with
                | false => simp [hv1, hd1, hs1, hConf]
                | true =>
                  cases hp : env.push
                      (if truthy opts.remote then opts.remote.getD "" else "origin")
                      ref (opts.force == some true) with
                  | err e => simp [hv1, hd1, hs1, hConf, hPush]
                  | ok _ =>
                    simp [hv1, hd1, hs1, hConf, hPush,
                      publishLoop_events env p hPub hLog sel]

theorem publish_dryRun_events (opts : PublishOptions) (env : Env)
    (p : Event → Bool)
    (hdr : opts.dryRun = some true)
    (hInitGit : p Event.promptInitGit = true)
    (hGitInit : p Event.gitInit = true)
    (hType : p Event.promptPublishType = true)
    (hSelB : p Event.promptSelectBranch = true)
    (hSelT : p Event.promptSelectTag = true)
    (hCT : p Event.promptCreateTag = true)
    (hCTag : ∀ n, p (Event.createTag n) = true)
    (hRC : ∀ s, p (Event.promptRegistryConfirm s) = true)
    (hDry : ∀ a b c, p (Event.dryRunReport a b c) = true) :
    ((publish opts env).2).all p = true := by
  unfold publish
  rcases hv : verifyGitSetup env with ⟨rv, ev1⟩
  have hv1 := verifyGitSetup_events env p hInitGit hGitInit _ _ hv
  cases rv with
  | err e => simpa using hv1
  | ok _ =>
    cases hw : getPrimaryRemote env with
    | err e => simpa using hv1
    | ok remote =>
      cases ha : verifyAuth env with
      | err e => simpa using hv1
      | ok _ =>
        rcases hd : determineGitRef opts env with ⟨rd, ev2⟩
        have hd1 := determineGitRef_events opts env p hType hSelB hSelT hCT hCTag _ _ hd
        cases rd with
        | err e => simp [hv1, hd1]
        | ok ref =>
          rcases hs : workingSelection opts env with ⟨rs, ev3⟩
          have hs1 := workingSelection_events opts env p hRC _ _ hs
          cases rs with
          | err e => simp [hv1, hd1, hs1]
          | ok sel => simp [hdr, hv1, hd1, hs1, hDry]

theorem publishLoop_filter_pubreg (env : Env) :
    ∀ l : List RegistryType,
      (publishLoop env l).filter isPubRegEv = l.map Event.publishRegistry := by
  intro l
  induction l with
  | nil => simp [publishLoop]
  | cons x rest ih =>
    unfold publishLoop
    split <;> simp [isPubRegEv, ih]

theorem publishLoop_no_push (env : Env) :
    ∀ l : List RegistryType, (publishLoop env l).all (fun ev => !isPushEv ev) = true := by
  intro l
  induction l with
  | nil => simp [publishLoop]
  | cons x rest ih =>
    unfold publishLoop
    split <;> simp_all [isPushEv]

/-! ## Registry-detection lemmas -/

theorem detectNpmPackage_registry (env : RegistryEnv) (p : PackageInfo)
    (h : detectNpmPackage env = Result.ok p) : p.registry = RegistryType.npm := by
  unfold detectNpmPackage at h
  split at h
  · exact Result.noConfusion h
  · exact Result.noConfusion h
  · split at h
    · exact Result.noConfusion h
    · split at h
      · exact Result.noConfusion h
      · injection h with h'; subst h'; rfl

theorem detectJsrFrom_registry (probe : FileProbe DenoConfig)
    (pathName : String) (p : PackageInfo)
    (h : detectJsrFrom probe pathName = Result.ok p) :
    p.registry = RegistryType.jsr := by
  unfold detectJsrFrom at h
  split at h
  · exact Result.noConfusion h
  · exact Result.noConfusion h
  · split at h
    · exact Result.noConfusion h
    · split at h
      · exact Result.noConfusion h
      · injection h with h'; subst h'; rfl

theorem detectJsrPackage_registry (env : RegistryEnv) (p : PackageInfo)
    (h : detectJsrPackage env = Result.ok p) : p.registry = RegistryType.jsr := by
  unfold detectJsrPackage at h
  split at h
  · split at h
    · exact Result.noConfusion h
    · exact detectJsrFrom_registry _ _ _ h
  · exact detectJsrFrom_registry _ _ _ h

theorem detectNpmPackage_congr (e1 e2 : RegistryEnv)
    (hp : e1.packageJson = e2.packageJson) :
    detectNpmPackage e1 = detectNpmPackage e2 := by
  unfold detectNpmPackage
  rw [hp]

theorem detectJsrPackage_congr (e1 e2 : RegistryEnv)
    (hd : e1.denoJson = e2.denoJson) (hj : e1.jsrJson = e2.jsrJson) :
    detectJsrPackage e1 = detectJsrPackage e2 := by
  unfold detectJsrPackage
  rw [hd, hj]

theorem jsrPart_all_jsr (env : RegistryEnv) :
    ((match detectJsrPackage env with
      | Result.ok p => [p]
      | Result.err _ => []).all (fun q => q.registry == RegistryType.jsr)) = true := by
  cases hj : detectJsrPackage env with
  | ok p => simp [detectJsrPackage_registry _ _ hj]
  | err e => simp

theorem npmPart_all_npm (env : RegistryEnv) :
    ((match detectNpmPackage env with
      | Result.ok p => if !p.isPrivate then [p] else []
      | Result.err _ => []).all (fun q => q.registry == RegistryType.npm)) = true := by
  cases hn : detectNpmPackage env with
  | ok p =>
    have hr := detectNpmPackage_registry _ _ hn
    by_cases hpriv : p.isPrivate <;> simp [hpriv, hr]
  | err e => simp

theorem npmPart_filter_jsr (env : RegistryEnv) :
    ((match detectNpmPackage env with
      | Result.ok p => if !p.isPrivate then [p] else []
      | Result.err _ => ([] : List PackageInfo)).filter
        (fun q : PackageInfo => q.registry == RegistryType.jsr)) = [] := by
  cases hn : detectNpmPackage env with
  | ok p =>
    have hr := detectNpmPackage_registry _ _ hn
    by_cases hpriv : p.isPrivate <;> simp [hpriv, hr]
  | err e => simp

theorem jsrPart_filter_npm (env : RegistryEnv) :
    ((match detectJsrPackage env with
      | Result.ok p => [p]
      | Result.err _ => ([] : List PackageInfo)).filter
        (fun q : PackageInfo => q.registry == RegistryType.npm)) = [] := by
  cases hj : detectJsrPackage env with
  | ok p => simp [detectJsrPackage_registry _ _ hj]
  | err e => simp

/-! ## Claim theorems -/

/-- C5: for every parsed deno.json configuration, the validation has
isValid true exactly when hasValidName, hasValidVersion and hasExports
are all true; an absent (or empty, hence falsy) license field always
contributes the license suggestion and never influences isValid. -/
theorem validateJsrConfig_isValid_iff
    (cfg : DenoConfig) (v : JsrValidation)
    (h : validateJsrConfig (FileProbe.parsed cfg) = Result.ok v) :
    (v.isValid = (v.hasValidName && v.hasValidVersion && v.hasExports))
    ∧ (truthy cfg.license = false → licenseSuggestion ∈ v.suggestions)
    ∧ (∀ (lic : Option String) (v2 : JsrValidation),
        validateJsrConfig (FileProbe.parsed { cfg with license := lic }) = Result.ok v2 →
        v2.isValid = v.isValid) := by
  unfold validateJsrConfig at h
  dsimp only at h
  injection h with h'
  subst h'
  refine ⟨rfl, ?_, ?_⟩
  · intro hl
    simp [hl, List.mem_append]
  · intro lic v2 h2
    unfold validateJsrConfig at h2
    dsimp only at h2
    injection h2 with h2'
    subst h2'
    rfl

/-- C5 witness: a concrete manifest with valid name and version, an
exports entry and no license validates as isValid with the license
suggestion present. -/
theorem validateJsrConfig_isValid_iff_witness :
    ((match validateJsrConfig (FileProbe.parsed
        { name := some "@acme/widgets", version := some "1.0.0",
          exports := some (ExportsField.str "./mod.ts") }) with
      | Result.ok v => v.isValid = (v.hasValidName && v.hasValidVersion && v.hasExports)
          ∧ licenseSuggestion ∈ v.suggestions
      | Result.err _ => False)) := by
  cases hv : validateJsrConfig (FileProbe.parsed
      { name := some "@acme/widgets", version := some "1.0.0",
        exports := some (ExportsField.str "./mod.ts") }) with
  | ok v =>
    have h := validateJsrConfig_isValid_iff
      { name := some "@acme/widgets", version := some "1.0.0",
        exports := some (ExportsField.str "./mod.ts") } v hv
    exact ⟨h.1, h.2.1 rfl⟩
  | err e =>
    unfold validateJsrConfig at hv
    exact Result.noConfusion hv

/-- C6: each remediation sub-flow returns success immediately, with an
empty event trace, when its need predicate does not hold: auto-init on
an existing repository, auto-commit on a clean working tree, auto-fix
on an already-valid manifest. -/
theorem remediation_noop_when_not_needed :
    (∀ env : InitEnv, needsGitInit env = false →
        autoInitializeGit env = (Result.ok (), []))
    ∧ (∀ (env : CommitEnv) (changes : GitChanges),
        getUncommittedChanges env = Result.ok changes → changes.total = 0 →
        autoCommitChanges env = (Result.ok (), []))
    ∧ (∀ (validation : JsrValidation) (env : FixEnv),
        validation.isValid = true →
        autoFixJsrConfig validation env = (FlowResult.ret (Result.ok ()), [])) := by
  refine ⟨?_, ?_, ?_⟩
  · intro env h
    have hr : env.isRepo = true := by simpa [needsGitInit] using h
    simp [autoInitializeGit, hr]
  · intro env changes hg ht
    unfold autoCommitChanges
    rw [hg]
    simp [ht]
  · intro validation env h
    simp [autoFixJsrConfig, h]

/-- C6 witness: concrete no-op invocations of the three sub-flows. -/
theorem remediation_noop_when_not_needed_witness :
    autoInitializeGit { isRepo := true } = (Result.ok (), [])
    ∧ autoCommitChanges {} = (Result.ok (), [])
    ∧ autoFixJsrConfig { isValid := true } {} = (FlowResult.ret (Result.ok ()), []) := by
  refine ⟨?_, ?_, ?_⟩
  · exact remediation_noop_when_not_needed.1 { isRepo := true } rfl
  · exact remediation_noop_when_not_needed.2.1 {} (parseGitStatus "") rfl rfl
  · exact remediation_noop_when_not_needed.2.2 { isValid := true } {} rfl

/-- C9: registry detection treats a failed npm probe as npm simply not
eligible and a failed JSR probe as JSR not eligible, excludes a
private npm manifest even when its fields are present, and the two
probes are independent: the JSR entries depend only on the deno.json
and jsr.json state and the npm entries only on the package.json
state. -/
theorem detectRegistries_props :
    (∀ (env : RegistryEnv) (er : PublishError),
        detectNpmPackage env = Result.err er →
        (detectRegistries env).all (fun p => p.registry == RegistryType.jsr) = true)
    ∧ (∀ (env : RegistryEnv) (er : PublishError),
        detectJsrPackage env = Result.err er →
        (detectRegistries env).all (fun p => p.registry == RegistryType.npm) = true)
    ∧ (∀ (env : RegistryEnv) (pkg : NpmPkg),
        env.packageJson = FileProbe.parsed pkg →
        pkg.privateField = some true →
        (detectRegistries env).all (fun p => p.registry == RegistryType.jsr) = true)
    ∧ (∀ e1 e2 : RegistryEnv, e1.denoJson = e2.denoJson → e1.jsrJson = e2.jsrJson →
        (detectRegistries e1).filter (fun p => p.registry == RegistryType.jsr) =
        (detectRegistries e2).filter (fun p => p.registry == RegistryType.jsr))
    ∧ (∀ e1 e2 : RegistryEnv, e1.packageJson = e2.packageJson →
        (detectRegistries e1).filter (fun p => p.registry == RegistryType.npm) =
        (detectRegistries e2).filter (fun p => p.registry == RegistryType.npm)) := by
  refine ⟨?_, ?_, ?_, ?_, ?_⟩
  · intro env er h
    unfold detectRegistries
    rw [h]
    simpa using jsrPart_all_jsr env
  · intro env er h
    unfold detectRegistries
    rw [h]
    simpa using npmPart_all_npm env
  · intro env pkg hp hpriv
    unfold detectRegistries
    cases hn : detectNpmPackage env with
    | err e => simpa using jsrPart_all_jsr env
    | ok p =>
      have hpr : p.isPrivate = true := by
        unfold detectNpmPackage at hn
        split at hn
        · exact Result.noConfusion hn
        · exact Result.noConfusion hn
        · rename_i pkg2 heq
          rw [hp] at heq
          injection heq with heq'
          subst heq'
          split at hn
          · exact Result.noConfusion hn
          · split at hn
            · exact Result.noConfusion hn
            · injection hn with h'
              subst h'
              simp [hpriv]
      dsimp only
      rw [hpr]
      simpa using jsrPart_all_jsr env
  · intro e1 e2 hd hj
    unfold detectRegistries
    rw [List.filter_append, List.filter_append,
      npmPart_filter_jsr e1, npmPart_filter_jsr e2,
      detectJsrPackage_congr e1 e2 hd hj]
  · intro e1 e2 hp
    unfold detectRegistries
    rw [List.filter_append, List.filter_append,
      jsrPart_filter_npm e1, jsrPart_filter_npm e2,
      detectNpmPackage_congr e1 e2 hp]

/-- C9 witness: the scenario-C manifest with both fields present but
private true is excluded, leaving only the JSR probe eligible. -/
theorem detectRegistries_props_witness :
    (detectRegistries
      { packageJson := FileProbe.parsed
          { name := some "pkg", version := some "1.0.0",
            privateField := some true } }).all
      (fun p => p.registry == RegistryType.jsr) = true := by
  exact detectRegistries_props.2.2.1
    { packageJson := FileProbe.parsed
        { name := some "pkg", version := some "1.0.0",
          privateField := some true } }
    { name := some "pkg", version := some "1.0.0", privateField := some true }
    rfl rfl

/-- C10: the registries option (the --registry subset accepted by the
CLI) never influences the publish workflow: two invocations whose
options differ only in that field produce the same outcome and the
same event trace, hence the same detection, prompts, selection and
push or publish actions. -/
theorem publish_ignores_registries_field (opts : PublishOptions) (env : Env)
    (regs : Option (List String)) :
    publish { opts with registries := regs } env = publish opts env := rfl

/-- A supplied (nonempty) optional string is truthy. -/
theorem truthy_some (s : String) (h : s ≠ "") : truthy (some s) = true := by
  show (!s.isEmpty) = true
  cases he : s.isEmpty
  · rfl
  · exact absurd ((String.isEmpty_iff s).mp he) h

/-- C7: the reference resolver honors branch first (verbatim, no
events), then tag (verbatim, no events), then create-tag (the tag is
created first, and its creation outcome decides the result); a
tag-creation failure aborts the whole pipeline with that error. -/
theorem determineGitRef_strategy_order (opts : PublishOptions) (env : Env) :
    (∀ b, opts.branch = some b → b ≠ "" →
        determineGitRef opts env = (Result.ok b, []))
    ∧ (∀ t, truthy opts.branch = false → opts.tag = some t → t ≠ "" →
        determineGitRef opts env = (Result.ok t, []))
    ∧ (∀ n, truthy opts.branch = false → truthy opts.tag = false →
        opts.createTag = some n → n ≠ "" →
        determineGitRef opts env =
          (match env.createTagResult n with
           | Result.ok _ => (Result.ok n, [Event.createTag n])
           | Result.err e => (Result.err e, [Event.createTag n])))
    ∧ (∀ (n : String) (er : PublishError) (e1 : List Event) (remote : RemoteInfo),
        truthy opts.branch = false → truthy opts.tag = false →
        opts.createTag = some n → n ≠ "" →
        env.createTagResult n = Result.err er →
        verifyGitSetup env = (Result.ok (), e1) →
        getPrimaryRemote env = Result.ok remote →
        verifyAuth env = Result.ok () →
        publish opts env = (Result.err er, e1 ++ [Event.createTag n])) := by
  refine ⟨?_, ?_, ?_, ?_⟩
  · intro b hb hne
    simp [determineGitRef, hb, truthy_some b hne]
  · intro t hbf hta hne
    simp [determineGitRef, hbf, hta, truthy_some t hne]
  · intro n hbf htf hct hne
    cases hc : env.createTagResult n with
    | ok u => simp [determineGitRef, hbf, htf, hct, truthy_some n hne, hc]
    | err e => simp [determineGitRef, hbf, htf, hct, truthy_some n hne, hc]
  · intro n er e1 remote hbf htf hct hne hcr h1 h2 h3
    have hd : determineGitRef opts env = (Result.err er, [Event.createTag n]) := by
      simp [determineGitRef, hbf, htf, hct, truthy_some n hne, hcr]
    unfold publish
    rw [h1, h2, h3, hd]

/-- C7 witness: scenario B resolves an explicit tag with no prompts,
and a failing explicit create-tag aborts a concrete pipeline. -/
theorem determineGitRef_strategy_order_witness :
    determineGitRef { tag := some "v1.0.0" }
      { remotes := Result.ok [{ name := "origin", url := "git@github.com:acme/widgets.git" }] } =
      (Result.ok "v1.0.0", [])
    ∧ publish { createTag := some "v2.0.0" }
      { remotes := Result.ok [{ name := "origin", url := "git@github.com:acme/widgets.git" }],
        createTagResult := fun _ =>
          Result.err ⟨"Failed to create tag", "GIT_TAG_FAILED"⟩ } =
      (Result.err ⟨"Failed to create tag", "GIT_TAG_FAILED"⟩,
       [Event.createTag "v2.0.0"]) := by
  constructor
  · exact (determineGitRef_strategy_order { tag := some "v1.0.0" }
      { remotes := Result.ok [{ name := "origin", url := "git@github.com:acme/widgets.git" }] }).2.1
      "v1.0.0" rfl rfl (by decide)
  · have h := (determineGitRef_strategy_order { createTag := some "v2.0.0" }
      { remotes := Result.ok [{ name := "origin", url := "git@github.com:acme/widgets.git" }],
        createTagResult := fun _ =>
          Result.err ⟨"Failed to create tag", "GIT_TAG_FAILED"⟩ }).2.2.2
      "v2.0.0" ⟨"Failed to create tag", "GIT_TAG_FAILED"⟩ []
      (getRemoteInfo { name := "origin", url := "git@github.com:acme/widgets.git" })
      rfl rfl rfl (by decide) rfl rfl rfl rfl
    simpa using h

/-- C2: with dry-run set the pipeline issues no push, no registry
publish and no confirmation prompt in any environment; and when the
verification, resolution and selection phases succeed it terminates
successfully after reporting the resolved ref, the remote and the
would-be registry list. -/
theorem publish_dry_run (opts : PublishOptions) (env : Env)
    (e1 e2 e3 : List Event) (remote : RemoteInfo) (ref : String)
    (sel : List RegistryType)
    (hd : opts.dryRun = some true)
    (h1 : verifyGitSetup env = (Result.ok (), e1))
    (h2 : getPrimaryRemote env = Result.ok remote)
    (h3 : verifyAuth env = Result.ok ())
    (h4 : determineGitRef opts env = (Result.ok ref, e2))
    (h5 : workingSelection opts env = (Result.ok sel, e3)) :
    publish opts env =
      (Result.ok (),
       e1 ++ e2 ++ e3 ++
         [Event.dryRunReport ref remote.name (sel.map getRegistryName)])
    ∧ ∀ envB : Env,
        ((publish opts envB).2).all
          (fun ev => !(isPushEv ev || isPubRegEv ev || isConfirmEv ev)) = true := by
  constructor
  · rw [publish_unfold opts env e1 e2 e3 remote ref sel h1 h2 h3 h4 h5]
    simp [hd]
  · intro envB
    apply publish_dryRun_events opts envB _ hd <;> intros <;> rfl

/-- C2 witness: a concrete dry run reports the resolved ref, remote
and empty registry list and succeeds. -/
theorem publish_dry_run_witness :
    publish { branch := some "main", dryRun := some true }
      { remotes := Result.ok [{ name := "origin", url := "git@github.com:acme/widgets.git" }] } =
    (Result.ok (), [Event.dryRunReport "main" "origin" []]) := by
  have h := (publish_dry_run { branch := some "main", dryRun := some true }
    { remotes := Result.ok [{ name := "origin", url := "git@github.com:acme/widgets.git" }] }
    [] [] []
    (getRemoteInfo { name := "origin", url := "git@github.com:acme/widgets.git" })
    "main" [] rfl rfl rfl rfl rfl rfl).1
  simpa [getRemoteInfo] using h

/-- C1: once the execute phase is reached (all earlier phases
succeeded and the user confirmed), a failing push aborts the pipeline
with that error and the trace ends at the push event, so no registry
publish is attempted; after a successful push every registry of the
final selection is attempted in order regardless of individual publish
failures and the pipeline succeeds; and no push or registry-publish
event occurs before the push. -/
theorem publish_execute_phase (opts : PublishOptions) (env : Env)
    (e1 e2 e3 : List Event) (remote : RemoteInfo) (ref : String)
    (sel : List RegistryType) (rm : String) (ff : Bool)
    (h1 : verifyGitSetup env = (Result.ok (), e1))
    (h2 : getPrimaryRemote env = Result.ok remote)
    (h3 : verifyAuth env = Result.ok ())
    (h4 : determineGitRef opts env = (Result.ok ref, e2))
    (h5 : workingSelection opts env = (Result.ok sel, e3))
    (hdr : opts.dryRun ≠ some true)
    (hc : env.confirmPublishAnswer = PromptOutcome.answer true)
    (hrm : rm = if truthy opts.remote then opts.remote.getD "" else "origin")
    (hff : ff = (opts.force == some true)) :
    (∀ er, env.push rm ref ff = Result.err er →
        publish opts env =
          (Result.err er,
           e1 ++ e2 ++ e3 ++ [Event.promptConfirmPublish, Event.push rm ref ff]))
    ∧ (env.push rm ref ff = Result.ok () →
        publish opts env =
          (Result.ok (),
           e1 ++ e2 ++ e3 ++ [Event.promptConfirmPublish, Event.push rm ref ff]
             ++ publishLoop env sel))
    ∧ ((publishLoop env sel).filter isPubRegEv = sel.map Event.publishRegistry)
    ∧ ((publishLoop env sel).all (fun ev => !isPushEv ev) = true)
    ∧ ((e1 ++ e2 ++ e3).all (fun ev => !(isPushEv ev || isPubRegEv ev)) = true) := by
  subst hrm
  subst hff
  have hdr' : (opts.dryRun == some true) = false := by
    rw [beq_eq_false_iff_ne]
    exact hdr
  have hu := publish_unfold opts env e1 e2 e3 remote ref sel h1 h2 h3 h4 h5
  rw [hdr'] at hu
  simp only [Bool.false_eq_true, if_false, hc] at hu
  refine ⟨?_, ?_, publishLoop_filter_pubreg env sel, publishLoop_no_push env sel, ?_⟩
  · intro er hp
    rw [hp] at hu
    rw [hu]
    simp
  · intro hp
    rw [hp] at hu
    rw [hu]
    simp
  · have k1 := verifyGitSetup_events env
      (fun ev => !(isPushEv ev || isPubRegEv ev)) rfl rfl _ _ h1
    have k2 := determineGitRef_events opts env
      (fun ev => !(isPushEv ev || isPubRegEv ev)) rfl rfl rfl rfl
      (fun _ => rfl) _ _ h4
    have k3 := workingSelection_events opts env
      (fun ev => !(isPushEv ev || isPubRegEv ev)) (fun _ => rfl) _ _ h5
    simp only [List.all_append, k1, k2, k3, Bool.and_self]

/-- C1 witness: a concrete pipeline whose npm publish fails still
pushes first, attempts the registry, and terminates successfully. -/
theorem publish_execute_phase_witness :
    publish { branch := some "main" }
      { remotes := Result.ok [{ name := "origin", url := "git@github.com:acme/widgets.git" }],
        reg := { packageJson := (FileProbe.parsed
          { name := some "pkg", version := some "1.0.0" }) },
        publishRegistryResult := fun _ =>
          Result.err ⟨"Failed to publish to npm", "NPM_PUBLISH_FAILED"⟩ } =
    (Result.ok (),
     [Event.promptRegistryConfirm "npm", Event.promptConfirmPublish,
      Event.push "origin" "main" false,
      Event.publishRegistry RegistryType.npm,
      Event.registryErrorLogged RegistryType.npm]) := by
  have h := (publish_execute_phase { branch := some "main" }
    { remotes := Result.ok [{ name := "origin", url := "git@github.com:acme/widgets.git" }],
      reg := { packageJson := (FileProbe.parsed
        { name := some "pkg", version := some "1.0.0" }) },
      publishRegistryResult := fun _ =>
        Result.err ⟨"Failed to publish to npm", "NPM_PUBLISH_FAILED"⟩ }
    [] [] [Event.promptRegistryConfirm "npm"]
    (getRemoteInfo { name := "origin", url := "git@github.com:acme/widgets.git" })
    "main" [RegistryType.npm] "origin" false
    rfl rfl rfl rfl rfl (by decide) rfl rfl rfl).2.1 rfl
  exact h.trans (by rfl)

/-- C8 counterexample: a run that reaches the final confirmation
prompt and is cancelled there terminates as a clean success (the
catch in promptConfirmPublish converts the cancellation into a
decline), not as a hard failure. -/
theorem confirm_cancellation_counterexample :
    publish { branch := some "main", skipRegistries := some true }
      { remotes := Result.ok [{ name := "origin", url := "git@github.com:acme/widgets.git" }],
        confirmPublishAnswer := PromptOutcome.cancelled } =
    (Result.ok (), [Event.promptConfirmPublish]) := rfl

theorem selectLoop_err (env : Env) :
    ∀ (l : List String) (er : PublishError) (evs : List Event),
      selectLoop env l = (Result.err er, evs) →
      er = ⟨"Registry selection cancelled", "PROMPT_CANCELLED"⟩ := by
  intro l
  induction l with
  | nil =>
    intro er evs h
    injection h with h1 h2
    exact Result.noConfusion h1
  | cons x rest ih =>
    intro er evs h
    unfold selectLoop at h
    split at h
    · injection h with h1 h2
      injection h1 with h1'
      exact h1'.symm
    · split at h
      · rename_i e evs2 heq
        injection h with h1 h2
        injection h1 with h1'
        subst h1'
        exact ih _ _ heq
      · injection h with h1 h2
        exact Result.noConfusion h1

theorem promptSelectRegistries_err (available : List String) (env : Env) :
    ∀ (er : PublishError) (evs : List Event),
      promptSelectRegistries available env = (Result.err er, evs) →
      er = ⟨"Registry selection cancelled", "PROMPT_CANCELLED"⟩ := by
  intro er evs h
  unfold promptSelectRegistries at h
  split at h
  · injection h with h1 h2
    exact Result.noConfusion h1
  · split at h
    · injection h with h1 h2
      injection h1 with h1'
      exact h1'.symm
    · injection h with h1 h2
      exact Result.noConfusion h1
    · injection h with h1 h2
      exact Result.noConfusion h1
  · exact selectLoop_err env _ _ _ h

theorem workingSelection_err (opts : PublishOptions) (env : Env) :
    ∀ (er : PublishError) (evs : List Event),
      workingSelection opts env = (Result.err er, evs) →
      er = ⟨"Registry selection cancelled", "PROMPT_CANCELLED"⟩ := by
  intro er evs h
  unfold workingSelection at h
  dsimp only at h
  split at h
  · injection h with h1 h2
    exact Result.noConfusion h1
  · split at h
    · rename_i e evs2 heq
      injection h with h1 h2
      injection h1 with h1'
      subst h1'
      exact promptSelectRegistries_err _ env _ _ heq
    · injection h with h1 h2
      exact Result.noConfusion h1

/-- C8 amended: cancellation of the resolver and selection prompts
surfaces as a PROMPT_CANCELLED typed error that hard-fails the
pipeline — the publish-type, branch-selection, tag-selection and
create-tag prompts each, and the registry-selection phase, whose only
possible error is the PROMPT_CANCELLED typed error, which aborts the
pipeline; the init-git prompt converts cancellation into the generic
PUBLISH_FAILED hard failure rather than a dedicated cancellation
code; and cancellation of the final confirmation prompt is converted
into a decline and the pipeline terminates as a clean success. -/
theorem prompt_cancellation_policy :
    (∀ (opts : PublishOptions) (env : Env) (e1 e2 e3 : List Event)
        (remote : RemoteInfo) (ref : String) (sel : List RegistryType),
        verifyGitSetup env = (Result.ok (), e1) →
        getPrimaryRemote env = Result.ok remote →
        verifyAuth env = Result.ok () →
        determineGitRef opts env = (Result.ok ref, e2) →
        workingSelection opts env = (Result.ok sel, e3) →
        opts.dryRun ≠ some true →
        env.confirmPublishAnswer = PromptOutcome.cancelled →
        publish opts env =
          (Result.ok (), e1 ++ e2 ++ e3 ++ [Event.promptConfirmPublish]))
    ∧ (∀ (opts : PublishOptions) (env : Env) (status : GitStatus),
        env.gitInstalled = true →
        env.gitStatus = Result.ok status →
        status.isRepo = false →
        env.initGitAnswer = PromptOutcome.cancelled →
        publish opts env =
          (Result.err ⟨"Publish workflow failed", "PUBLISH_FAILED"⟩,
           [Event.promptInitGit]))
    ∧ (∀ (opts : PublishOptions) (env : Env) (e1 : List Event)
        (remote : RemoteInfo),
        verifyGitSetup env = (Result.ok (), e1) →
        getPrimaryRemote env = Result.ok remote →
        verifyAuth env = Result.ok () →
        truthy opts.branch = false → truthy opts.tag = false →
        truthy opts.createTag = false →
        env.publishTypeAnswer = PromptOutcome.cancelled →
        publish opts env =
          (Result.err ⟨"Selection cancelled", "PROMPT_CANCELLED"⟩,
           e1 ++ [Event.promptPublishType]))
    ∧ (∀ (opts : PublishOptions) (env : Env) (e1 : List Event)
        (remote : RemoteInfo) (bs : List String) (b : String),
        verifyGitSetup env = (Result.ok (), e1) →
        getPrimaryRemote env = Result.ok remote →
        verifyAuth env = Result.ok () →
        truthy opts.branch = false → truthy opts.tag = false →
        truthy opts.createTag = false →
        env.publishTypeAnswer = PromptOutcome.answer PublishType.branch →
        env.branches = Result.ok (b :: bs) →
        env.selectBranchAnswer = PromptOutcome.cancelled →
        publish opts env =
          (Result.err ⟨"Branch selection cancelled", "PROMPT_CANCELLED"⟩,
           e1 ++ [Event.promptPublishType, Event.promptSelectBranch]))
    ∧ (∀ (opts : PublishOptions) (env : Env) (e1 : List Event)
        (remote : RemoteInfo) (ts : List String) (t : String),
        verifyGitSetup env = (Result.ok (), e1) →
        getPrimaryRemote env = Result.ok remote →
        verifyAuth env = Result.ok () →
        truthy opts.branch = false → truthy opts.tag = false →
        truthy opts.createTag = false →
        env.publishTypeAnswer = PromptOutcome.answer PublishType.tag →
        env.tags = Result.ok (t :: ts) →
        env.selectTagAnswer = PromptOutcome.cancelled →
        publish opts env =
          (Result.err ⟨"Tag selection cancelled", "PROMPT_CANCELLED"⟩,
           e1 ++ [Event.promptPublishType, Event.promptSelectTag]))
    ∧ (∀ (opts : PublishOptions) (env : Env) (e1 : List Event)
        (remote : RemoteInfo),
        verifyGitSetup env = (Result.ok (), e1) →
        getPrimaryRemote env = Result.ok remote →
        verifyAuth env = Result.ok () →
        truthy opts.branch = false → truthy opts.tag = false →
        truthy opts.createTag = false →
        env.publishTypeAnswer = PromptOutcome.answer PublishType.createTag →
        env.createTagAnswer = PromptOutcome.cancelled →
        publish opts env =
          (Result.err ⟨"Tag creation cancelled", "PROMPT_CANCELLED"⟩,
           e1 ++ [Event.promptPublishType, Event.promptCreateTag]))
    ∧ (∀ (opts : PublishOptions) (env : Env) (e1 e2 e3 : List Event)
        (remote : RemoteInfo) (ref : String) (er : PublishError),
        verifyGitSetup env = (Result.ok (), e1) →
        getPrimaryRemote env = Result.ok remote →
        verifyAuth env = Result.ok () →
        determineGitRef opts env = (Result.ok ref, e2) →
        workingSelection opts env = (Result.err er, e3) →
        er = ⟨"Registry selection cancelled", "PROMPT_CANCELLED"⟩ ∧
        publish opts env = (Result.err er, e1 ++ e2 ++ e3)) := by
  refine ⟨?_, ?_, ?_, ?_, ?_, ?_, ?_⟩
  · intro opts env e1 e2 e3 remote ref sel h1 h2 h3 h4 h5 hdr hc
    have hdr' : (opts.dryRun == some true) = false := by
      rw [beq_eq_false_iff_ne]
      exact hdr
    have hu := publish_unfold opts env e1 e2 e3 remote ref sel h1 h2 h3 h4 h5
    rw [hdr'] at hu
    simp only [Bool.false_eq_true, if_false, hc] at hu
    simpa using hu
  · intro opts env status hgi hgs hrepo hinit
    have hv : verifyGitSetup env =
        (Result.err ⟨"Publish workflow failed", "PUBLISH_FAILED"⟩,
         [Event.promptInitGit]) := by
      simp [verifyGitSetup, hgi, hgs, hrepo, hinit]
    unfold publish
    rw [hv]
  · intro opts env e1 remote h1 h2 h3 hbf htf hcf hpt
    have hd : determineGitRef opts env =
        (Result.err ⟨"Selection cancelled", "PROMPT_CANCELLED"⟩,
         [Event.promptPublishType]) := by
      simp [determineGitRef, hbf, htf, hcf, hpt]
    unfold publish
    rw [h1, h2, h3, hd]
  · intro opts env e1 remote bs b h1 h2 h3 hbf htf hcf hpt hbr hsb
    have hd : determineGitRef opts env =
        (Result.err ⟨"Branch selection cancelled", "PROMPT_CANCELLED"⟩,
         [Event.promptPublishType, Event.promptSelectBranch]) := by
      simp [determineGitRef, hbf, htf, hcf, hpt, hbr, hsb]
    unfold publish
    rw [h1, h2, h3, hd]
  · intro opts env e1 remote ts t h1 h2 h3 hbf htf hcf hpt htags hsel
    have hd : determineGitRef opts env =
        (Result.err ⟨"Tag selection cancelled", "PROMPT_CANCELLED"⟩,
         [Event.promptPublishType, Event.promptSelectTag]) := by
      simp [determineGitRef, hbf, htf, hcf, hpt, htags, hsel]
    unfold publish
    rw [h1, h2, h3, hd]
  · intro opts env e1 remote h1 h2 h3 hbf htf hcf hpt hcta
    have hd : determineGitRef opts env =
        (Result.err ⟨"Tag creation cancelled", "PROMPT_CANCELLED"⟩,
         [Event.promptPublishType, Event.promptCreateTag]) := by
      simp [determineGitRef, hbf, htf, hcf, hpt, hcta]
    unfold publish
    rw [h1, h2, h3, hd]
  · intro opts env e1 e2 e3 remote ref er h1 h2 h3 h4 hw
    refine ⟨workingSelection_err opts env er e3 hw, ?_⟩
    unfold publish
    rw [h1, h2, h3, h4, hw]

/-- C8 witness: concrete instances of every part of the policy — the
cancelled confirmation ending as a success, the cancelled init prompt
as PUBLISH_FAILED, and each resolver and registry-selection prompt
cancellation as a PROMPT_CANCELLED hard failure. -/
theorem prompt_cancellation_policy_witness :
    publish { tag := some "v1.0.0", skipRegistries := some true }
      { remotes := Result.ok [{ name := "origin", url := "git@github.com:acme/widgets.git" }],
        confirmPublishAnswer := PromptOutcome.cancelled } =
      (Result.ok (), [Event.promptConfirmPublish])
    ∧ publish {}
      { gitStatus := Result.ok { isRepo := false },
        initGitAnswer := PromptOutcome.cancelled } =
      (Result.err ⟨"Publish workflow failed", "PUBLISH_FAILED"⟩,
       [Event.promptInitGit])
    ∧ publish {}
      { remotes := Result.ok [{ name := "origin", url := "git@github.com:acme/widgets.git" }] } =
      (Result.err ⟨"Selection cancelled", "PROMPT_CANCELLED"⟩,
       [Event.promptPublishType])
    ∧ publish {}
      { remotes := Result.ok [{ name := "origin", url := "git@github.com:acme/widgets.git" }],
        publishTypeAnswer := PromptOutcome.answer PublishType.branch,
        branches := Result.ok ["main"] } =
      (Result.err ⟨"Branch selection cancelled", "PROMPT_CANCELLED"⟩,
       [Event.promptPublishType, Event.promptSelectBranch])
    ∧ publish {}
      { remotes := Result.ok [{ name := "origin", url := "git@github.com:acme/widgets.git" }],
        publishTypeAnswer := PromptOutcome.answer PublishType.tag,
        tags := Result.ok ["v0.9.0", "v1.0.0"],
        selectTagAnswer := PromptOutcome.cancelled } =
      (Result.err ⟨"Tag selection cancelled", "PROMPT_CANCELLED"⟩,
       [Event.promptPublishType, Event.promptSelectTag])
    ∧ publish {}
      { remotes := Result.ok [{ name := "origin", url := "git@github.com:acme/widgets.git" }],
        publishTypeAnswer := PromptOutcome.answer PublishType.createTag } =
      (Result.err ⟨"Tag creation cancelled", "PROMPT_CANCELLED"⟩,
       [Event.promptPublishType, Event.promptCreateTag])
    ∧ publish { branch := some "main" }
      { remotes := Result.ok [{ name := "origin", url := "git@github.com:acme/widgets.git" }],
        reg := { packageJson := (FileProbe.parsed
          { name := some "pkg", version := some "1.0.0" }) },
        registryConfirm := fun _ => PromptOutcome.cancelled } =
      (Result.err ⟨"Registry selection cancelled", "PROMPT_CANCELLED"⟩,
       [Event.promptRegistryConfirm "npm"]) := by
  refine ⟨?_, ?_, ?_, ?_, ?_, ?_, ?_⟩
  · have h := prompt_cancellation_policy.1
      { tag := some "v1.0.0", skipRegistries := some true }
      { remotes := Result.ok [{ name := "origin", url := "git@github.com:acme/widgets.git" }],
        confirmPublishAnswer := PromptOutcome.cancelled }
      [] [] []
      (getRemoteInfo { name := "origin", url := "git@github.com:acme/widgets.git" })
      "v1.0.0" [] rfl rfl rfl rfl rfl (by decide) rfl
    simpa using h
  · exact prompt_cancellation_policy.2.1 {}
      { gitStatus := Result.ok { isRepo := false },
        initGitAnswer := PromptOutcome.cancelled }
      { isRepo := false } rfl rfl rfl rfl
  · have h := prompt_cancellation_policy.2.2.1 {}
      { remotes := Result.ok [{ name := "origin", url := "git@github.com:acme/widgets.git" }] }
      []
      (getRemoteInfo { name := "origin", url := "git@github.com:acme/widgets.git" })
      rfl rfl rfl rfl rfl rfl rfl
    simpa using h
  · have h := prompt_cancellation_policy.2.2.2.1 {}
      { remotes := Result.ok [{ name := "origin", url := "git@github.com:acme/widgets.git" }],
        publishTypeAnswer := PromptOutcome.answer PublishType.branch,
        branches := Result.ok ["main"] }
      []
      (getRemoteInfo { name := "origin", url := "git@github.com:acme/widgets.git" })
      [] "main" rfl rfl rfl rfl rfl rfl rfl rfl rfl
    simpa using h
  · have h := prompt_cancellation_policy.2.2.2.2.1 {}
      { remotes := Result.ok [{ name := "origin", url := "git@github.com:acme/widgets.git" }],
        publishTypeAnswer := PromptOutcome.answer PublishType.tag,
        tags := Result.ok ["v0.9.0", "v1.0.0"],
        selectTagAnswer := PromptOutcome.cancelled }
      []
      (getRemoteInfo { name := "origin", url := "git@github.com:acme/widgets.git" })
      ["v1.0.0"] "v0.9.0" rfl rfl rfl rfl rfl rfl rfl rfl rfl
    simpa using h
  · have h := prompt_cancellation_policy.2.2.2.2.2.1 {}
      { remotes := Result.ok [{ name := "origin", url := "git@github.com:acme/widgets.git" }],
        publishTypeAnswer := PromptOutcome.answer PublishType.createTag }
      []
      (getRemoteInfo { name := "origin", url := "git@github.com:acme/widgets.git" })
      rfl rfl rfl rfl rfl rfl rfl rfl
    simpa using h
  · have h := (prompt_cancellation_policy.2.2.2.2.2.2
      { branch := some "main" }
      { remotes := Result.ok [{ name := "origin", url := "git@github.com:acme/widgets.git" }],
        reg := { packageJson := (FileProbe.parsed
          { name := some "pkg", version := some "1.0.0" }) },
        registryConfirm := fun _ => PromptOutcome.cancelled }
      [] [] [Event.promptRegistryConfirm "npm"]
      (getRemoteInfo { name := "origin", url := "git@github.com:acme/widgets.git" })
      "main" ⟨"Registry selection cancelled", "PROMPT_CANCELLED"⟩
      rfl rfl rfl rfl rfl).2
    simpa using h

/-- C3 counterexample: a run on a dirty working tree proceeds through
the whole pipeline with no commit prompt, no staging and no commit
event, and succeeds carrying the dirty tree. -/
theorem dirty_tree_no_commit_counterexample :
    publish { branch := some "main", skipRegistries := some true }
      { gitStatus := (Result.ok
          { isRepo := true, currentBranch := some "main", isDirty := true }),
        remotes := Result.ok [{ name := "origin", url := "git@github.com:acme/widgets.git" }] } =
      (Result.ok (), [Event.promptConfirmPublish, Event.push "origin" "main" false])
    ∧ ([Event.promptConfirmPublish, Event.push "origin" "main" false].all
        (fun ev => !commitRemediationEv ev)) = true := ⟨rfl, rfl⟩

/-- C3 amended: the publish pipeline never invokes the
Commit-Pending-Changes remediation: whatever the options and the
working-tree state, its trace contains no commit prompt, no staging
and no commit event; uncommitted changes are carried into the execute
phase. -/
theorem publish_never_commit_remediation (opts : PublishOptions) (env : Env) :
    ((publish opts env).2).all (fun ev => !commitRemediationEv ev) = true := by
  apply publish_events opts env _ <;> intros <;> rfl

/-- C4 counterexample: a run whose working selection contains JSR
although the manifest is invalid by the validator and no JSR token is
set still performs no validation remediation and no token setup: it
publishes to JSR directly. -/
theorem jsr_no_validation_counterexample :
    publish { branch := some "main" }
      { remotes := Result.ok [{ name := "origin", url := "git@github.com:acme/widgets.git" }],
        reg := { denoJson := (FileProbe.parsed
          { name := some "Bad Name", version := some "1.0.0" }) } } =
      (Result.ok (),
       [Event.promptRegistryConfirm "JSR", Event.promptConfirmPublish,
        Event.push "origin" "main" false,
        Event.publishRegistry RegistryType.jsr])
    ∧ (match validateJsrConfig (FileProbe.parsed
          { name := some "Bad Name", version := some "1.0.0" }) with
       | Result.ok v => v.isValid
       | Result.err _ => true) = false
    ∧ hasJsrToken none = false
    ∧ ([Event.promptRegistryConfirm "JSR", Event.promptConfirmPublish,
        Event.push "origin" "main" false,
        Event.publishRegistry RegistryType.jsr].all
          (fun ev => !jsrRemediationEv ev)) = true := ⟨rfl, rfl, rfl, rfl⟩

/-- C4 amended: the publish pipeline never validates the JSR manifest,
never invokes the Fix-Registry-Manifest remediation and never checks
or sets up the JSR token: whatever the options and environment, its
trace contains no manifest-fix prompt, no deno.json write and no
token-setup prompt. -/
theorem publish_never_jsr_remediation (opts : PublishOptions) (env : Env) :
    ((publish opts env).2).all (fun ev => !jsrRemediationEv ev) = true := by
  apply publish_events opts env _ <;> intros <;> rfl

/-- C3 amended witness: a concrete run carries no commit-remediation
event. -/
theorem publish_never_commit_remediation_witness :
    ((publish {} {}).2).all (fun ev => !commitRemediationEv ev) = true :=
  publish_never_commit_remediation {} {}

/-- C4 amended witness: a concrete run carries no JSR-remediation
event. -/
theorem publish_never_jsr_remediation_witness :
    ((publish {} {}).2).all (fun ev => !jsrRemediationEv ev) = true :=
  publish_never_jsr_remediation {} {}

/-- C10 witness: a concrete pair of runs differing only in the
registries option coincide. -/
theorem publish_ignores_registries_field_witness :
    publish { registries := some ["npm", "jsr"] } {} = publish {} {} :=
  publish_ignores_registries_field {} {} (some ["npm", "jsr"])

end PublishJs
